import Mathlib

/-!
Verification of the EPICA/SISAL palaeoclimate Linked-Data pipeline
(`EPICA/plot_epica_from_tab.py`, `SISAL/plot_sisal_from_csv.py`,
`ontology/geo_lod_utils.py`) against its specification.

The RDF graph construction engine is shallowly embedded: Python f-strings
become explicit string concatenation, `rdflib.Graph` becomes a finite set of
triples, pandas rolling-median smoothing is embedded exactly (centered
window, `min_periods=1`), and Python's decimal rounding (`round`, `"{:.6f}"`)
is modelled as exact round-half-even over `ℚ`.  `scipy.signal.savgol_filter`
is an external collaborator (spec section 1) and is passed in as a function
parameter constrained only by its documented contract (one smoothed value per
input value; raises when the window exceeds the data length).  Module-level
smoothing globals (`ROLLING_WINDOW`, `SG_WINDOW`, `SG_POLYORDER`) and the
`datetime.now()` date string are passed to the builders as parameters.
-/

/-- Decimal digit character for `d < 10`, as produced by Python `str`/format. -/
def digitCh (d : ℕ) : Char := Char.ofNat (48 + d)

/-- Decimal digit string of a natural number, most significant digit first;
`0` renders as `"0"`.  This is Python `str(n)` for non-negative `n`. -/
def decDigits (n : ℕ) : List Char :=
  if h : n < 10 then [digitCh n]
  else decDigits (n / 10) ++ [digitCh (n % 10)]
  termination_by n
  decreasing_by exact Nat.div_lt_self (by omega) (by omega)

/-- Python `str(n)` for a natural number. -/
def pyStr (n : ℕ) : String := ⟨decDigits n⟩

/-- Zero-pad a character list on the left to width `w` (Python `zfill`). -/
def zfill (w : ℕ) (l : List Char) : List Char :=
  List.replicate (w - l.length) '0' ++ l

/-- Python `f"{n:0wd}"`: the decimal rendering of `n` zero-padded to width `w`. -/
def pad (w : ℕ) (n : ℕ) : String := ⟨zfill w (decDigits n)⟩

/-- Reads a digit string back into a number (left fold, leading zeros ignored). -/
def parseAcc (a : ℕ) (l : List Char) : ℕ :=
  l.foldl (fun x c => 10 * x + (c.toNat - 48)) a

theorem parseAcc_nil (a : ℕ) : parseAcc a [] = a := rfl

theorem parseAcc_cons (a : ℕ) (c : Char) (t : List Char) :
    parseAcc a (c :: t) = parseAcc (10 * a + (c.toNat - 48)) t := rfl

theorem parseAcc_append (a : ℕ) (l m : List Char) :
    parseAcc a (l ++ m) = parseAcc (parseAcc a l) m := by
  simp [parseAcc, List.foldl_append]

theorem toNat_digitCh (d : ℕ) (h : d < 10) : (digitCh d).toNat = 48 + d := by
  interval_cases d <;> decide

theorem parseAcc_decDigits (a n : ℕ) :
    parseAcc a (decDigits n) = a * 10 ^ (decDigits n).length + n := by
  induction n using Nat.strong_induction_on generalizing a with
  | _ n ih =>
    rw [decDigits]
    by_cases h : n < 10
    · simp only [h, dite_true]
      simp [parseAcc, toNat_digitCh n h]
      ring
    · simp only [h, dite_false]
      rw [parseAcc_append, ih (n / 10) (Nat.div_lt_self (by omega) (by omega))]
      simp only [parseAcc_cons, parseAcc_nil, List.length_append,
        List.length_singleton]
      rw [toNat_digitCh (n % 10) (Nat.mod_lt _ (by omega)), pow_succ, ← mul_assoc]
      omega

theorem parse_decDigits (n : ℕ) : parseAcc 0 (decDigits n) = n := by
  simpa using parseAcc_decDigits 0 n

theorem parseAcc_zeros (k : ℕ) (l : List Char) :
    parseAcc 0 (List.replicate k '0' ++ l) = parseAcc 0 l := by
  induction k with
  | zero => rfl
  | succ k ih =>
    rw [List.replicate_succ, List.cons_append, parseAcc_cons]
    have h0 : 10 * 0 + ('0'.toNat - 48) = 0 := by decide
    rw [h0]
    exact ih

theorem parse_zfill (w n : ℕ) : parseAcc 0 (zfill w (decDigits n)) = n := by
  rw [zfill, parseAcc_zeros, parse_decDigits]

theorem pad_injective (w : ℕ) : Function.Injective (pad w) := by
  intro m n h
  have hd : zfill w (decDigits m) = zfill w (decDigits n) := congrArg String.data h
  have := congrArg (parseAcc 0) hd
  rwa [parse_zfill, parse_zfill] at this

/-- All characters in a decimal rendering are digits. -/
def isDigitCh (c : Char) : Prop := 48 ≤ c.toNat ∧ c.toNat ≤ 57

theorem digitCh_isDigit (d : ℕ) (h : d < 10) : isDigitCh (digitCh d) := by
  constructor <;> (rw [toNat_digitCh d h]; omega)

theorem decDigits_digits (n : ℕ) : ∀ c ∈ decDigits n, isDigitCh c := by
  induction n using Nat.strong_induction_on with
  | _ n ih =>
    rw [decDigits]
    by_cases h : n < 10
    · simp only [h, dite_true, List.mem_singleton]
      rintro c rfl; exact digitCh_isDigit n h
    · simp only [h, dite_false, List.mem_append, List.mem_singleton]
      rintro c (hc | rfl)
      · exact ih (n / 10) (Nat.div_lt_self (by omega) (by omega)) c hc
      · exact digitCh_isDigit (n % 10) (Nat.mod_lt _ (by omega))

theorem zfill_digits (w n : ℕ) : ∀ c ∈ zfill w (decDigits n), isDigitCh c := by
  intro c hc
  rcases List.mem_append.1 hc with h | h
  · rcases List.eq_of_mem_replicate h with rfl; exact ⟨by decide, by decide⟩
  · exact decDigits_digits n c h

theorem underscore_not_digit : ¬ isDigitCh '_' := by
  rintro ⟨h1, h2⟩; revert h2; decide

/-- If two lists agree and both end in an underscore followed by digit-only
tails, the digit tails (and the fronts) agree.  Stated on reversed lists:
`u`, `v` are the reversed digit tails. -/
theorem rev_underscore_eq : ∀ (u v a b : List Char),
    (∀ c ∈ u, isDigitCh c) → (∀ c ∈ v, isDigitCh c) →
    u ++ '_' :: a = v ++ '_' :: b → u = v ∧ a = b := by
  intro u
  induction u with
  | nil =>
    intro v a b _ hv h
    cases v with
    | nil => simpa using h
    | cons c v' =>
      exfalso
      have : '_' = c := by simpa using congrArg (List.head? ·) h
      exact underscore_not_digit (this ▸ hv c (by simp))
  | cons c u' ih =>
    intro v a b hu hv h
    cases v with
    | nil =>
      exfalso
      have : c = '_' := by simpa using congrArg (List.head? ·) h
      exact underscore_not_digit (this ▸ hu c (by simp))
    | cons d v' =>
      simp only [List.cons_append, List.cons.injEq] at h
      obtain ⟨rfl, h2⟩ := h
      obtain ⟨h3, h4⟩ := ih v' a b (fun x hx => hu x (by simp [hx]))
        (fun x hx => hv x (by simp [hx])) h2
      exact ⟨by rw [h3], h4⟩

/-- Appending an underscore and a digit-only block is right-cancellative in the
digit block: equal results force equal digit blocks. -/
theorem underscore_suffix {a b s t : List Char}
    (hs : ∀ c ∈ s, isDigitCh c) (ht : ∀ c ∈ t, isDigitCh c)
    (h : a ++ '_' :: s = b ++ '_' :: t) : s = t := by
  have hrev := congrArg List.reverse h
  simp only [List.reverse_append, List.reverse_cons] at hrev
  have h1 : s.reverse ++ '_' :: a.reverse = t.reverse ++ '_' :: b.reverse := by
    simpa [List.append_assoc] using hrev
  have := rev_underscore_eq s.reverse t.reverse a.reverse b.reverse
    (fun c hc => hs c (List.mem_reverse.1 hc))
    (fun c hc => ht c (List.mem_reverse.1 hc)) h1
  have h2 := this.1
  have := congrArg List.reverse h2
  simpa using this

/-- Two appends with concrete prefixes differing at a common index are unequal. -/
theorem append_ne_of_index {p q s t : List Char} (i : ℕ)
    (hip : i < p.length) (hiq : i < q.length)
    (hne : p[i]? ≠ q[i]?) : p ++ s ≠ q ++ t := by
  intro h
  apply hne
  have h1 : (p ++ s)[i]? = p[i]? := by rw [List.getElem?_append, if_pos hip]
  have h2 : (q ++ t)[i]? = q[i]? := by rw [List.getElem?_append, if_pos hiq]
  rw [← h1, ← h2, h]

/-! ### `ontology/geo_lod_utils.py` — geometry encoder -/

/-- Python whitespace test used by `str.strip()` (ASCII whitespace). -/
def wsChar (c : Char) : Bool :=
  c = ' ' || c = '\t' || c = '\n' || c = '\r' || c = '\x0b' || c = '\x0c'

/-- `str.strip()` on the character list: drop whitespace from both ends. -/
def pyTrim (l : List Char) : List Char :=
  ((l.dropWhile wsChar).reverse.dropWhile wsChar).reverse

/-- Python `wkt.strip()`. -/
def pyStrip (s : String) : String := ⟨pyTrim s.data⟩

/-- Python `wkt.startswith("<")`: the first character is `<`. -/
def pyStartsWithLt (s : String) : Bool := decide (s.data.head? = some '<')

/-- `CRS_WGS84` from `geo_lod_utils.py`. -/
def CRS_WGS84 : String := "http://www.opengis.net/def/crs/EPSG/0/4326"

/-- `_ensure_crs` from `geo_lod_utils.py`:
strip, then prepend the CRS prefix unless the string starts with `<`. -/
def ensureCrs (wkt : String) : String :=
  let w := pyStrip wkt
  if pyStartsWithLt w then w else "<" ++ CRS_WGS84 ++ "> " ++ w

/-- Round half to even (Python `round` / `format` rounding) to an integer. -/
def halfEvenZ (q : ℚ) : ℤ :=
  let f := q.floor
  if q - f < 1/2 then f else if (1:ℚ)/2 < q - f then f + 1
  else if f % 2 = 0 then f else f + 1

/-- Python `round(x, nd)` modelled exactly over `ℚ` (round half to even). -/
def rndHE (nd : ℕ) (q : ℚ) : ℚ := (halfEvenZ (q * 10 ^ nd) : ℚ) / 10 ^ nd

/-- Python `"{:.pf}".format(q)`: fixed-point decimal rendering with `p`
fractional digits, round half to even. -/
def fmtFixed (p : ℕ) (q : ℚ) : String :=
  let n := halfEvenZ (q * 10 ^ p)
  (if n < 0 then "-" else "") ++ pyStr (n.natAbs / 10 ^ p) ++ "." ++
    pad p (n.natAbs % 10 ^ p)

/-- `wkt_point` from `geo_lod_utils.py` (default precision 6):
`"<CRS_WGS84> POINT(lon lat)"` with 6-decimal coordinates. -/
def wkt_point (lon lat : ℚ) : String :=
  "<" ++ CRS_WGS84 ++ "> POINT(" ++ fmtFixed 6 lon ++ " " ++ fmtFixed 6 lat ++ ")"

theorem dropWhile_head_not (p : Char → Bool) (l : List Char) :
    ∀ c, (l.dropWhile p).head? = some c → p c = false := by
  induction l with
  | nil => intro c h; simp [List.dropWhile] at h
  | cons a t ih =>
    intro c h
    by_cases hpa : p a
    · rw [List.dropWhile_cons_of_pos hpa] at h; exact ih c h
    · rw [List.dropWhile_cons_of_neg hpa] at h
      simp at h
      rw [← h]
      simpa using hpa

theorem dropWhile_eq_self_of_head (p : Char → Bool) (l : List Char)
    (h : ∀ c, l.head? = some c → p c = false) : l.dropWhile p = l := by
  cases l with
  | nil => rfl
  | cons a t => rw [List.dropWhile_cons_of_neg (by simp [h a rfl])]

theorem getLast?_pyTrim_not_ws (l : List Char) :
    ∀ c, (pyTrim l).getLast? = some c → wsChar c = false := by
  intro c h
  rw [pyTrim, List.getLast?_reverse] at h
  exact dropWhile_head_not wsChar _ c h

theorem head?_pyTrim_not_ws (l : List Char) :
    ∀ c, (pyTrim l).head? = some c → wsChar c = false := by
  intro c h
  rw [pyTrim, List.head?_reverse] at h
  set u := l.dropWhile wsChar with hu
  set v := u.reverse.dropWhile wsChar with hv
  have hvne : v ≠ [] := by
    intro hnil; rw [hnil] at h; simp at h
  obtain ⟨w, hw⟩ : v <:+ u.reverse := List.dropWhile_suffix wsChar
  have h2 : (u.reverse).getLast? = some c := by
    rw [← hw, List.getLast?_append_of_ne_nil w hvne, h]
  rw [List.getLast?_reverse] at h2
  exact dropWhile_head_not wsChar l c h2

theorem pyTrim_eq_self {l : List Char}
    (h1 : ∀ c, l.head? = some c → wsChar c = false)
    (h2 : ∀ c, l.getLast? = some c → wsChar c = false) : pyTrim l = l := by
  rw [pyTrim, dropWhile_eq_self_of_head wsChar l h1,
    dropWhile_eq_self_of_head wsChar l.reverse
      (fun c hc => h2 c (by rwa [List.head?_reverse] at hc)),
    List.reverse_reverse]

theorem pyTrim_idem (l : List Char) : pyTrim (pyTrim l) = pyTrim l :=
  pyTrim_eq_self (head?_pyTrim_not_ws l) (getLast?_pyTrim_not_ws l)

theorem pyStrip_idem (s : String) : pyStrip (pyStrip s) = pyStrip s :=
  congrArg String.mk (pyTrim_idem s.data)

theorem ensureCrs_of_startsWith (w : String)
    (h : pyStartsWithLt (pyStrip w) = true) : ensureCrs w = pyStrip w := by
  simp only [ensureCrs, h, if_true]

theorem ensureCrs_of_not_startsWith (w : String)
    (h : pyStartsWithLt (pyStrip w) = false) :
    ensureCrs w = "<" ++ CRS_WGS84 ++ "> " ++ pyStrip w := by
  simp only [ensureCrs, h, Bool.false_eq_true, if_false]

theorem empty_data : ("" : String).data = [] := rfl

/-- The CRS header injected by `_ensure_crs`, with its leading `<`. -/
theorem crs_header_data :
    ("<" ++ CRS_WGS84 ++ "> ").data =
      '<' :: (CRS_WGS84.data ++ ['>', ' ']) := by decide

theorem pyStrip_crs_prefixed (m : String) (hm : m.data ≠ [])
    (hlast : ∀ c, m.data.getLast? = some c → wsChar c = false) :
    pyStrip ("<" ++ CRS_WGS84 ++ "> " ++ m) = "<" ++ CRS_WGS84 ++ "> " ++ m := by
  apply String.ext
  show pyTrim _ = _
  rw [String.data_append]
  apply pyTrim_eq_self
  · intro c hc
    rw [crs_header_data, List.cons_append, List.head?_cons] at hc
    rw [← Option.some.inj hc]
    decide
  · intro c hc
    rw [List.getLast?_append_of_ne_nil _ hm] at hc
    exact hlast c hc

theorem ensureCrs_idem (w : String) (h : pyStrip w ≠ "") :
    ensureCrs (ensureCrs w) = ensureCrs w := by
  by_cases hlt : pyStartsWithLt (pyStrip w) = true
  · rw [ensureCrs_of_startsWith w hlt,
      ensureCrs_of_startsWith (pyStrip w) (by rw [pyStrip_idem]; exact hlt),
      pyStrip_idem]
  · rw [ensureCrs_of_not_startsWith w (Bool.not_eq_true _ ▸ hlt)]
    have hmne : (pyStrip w).data ≠ [] := fun hnil => h (String.ext hnil)
    have hstrip := pyStrip_crs_prefixed (pyStrip w) hmne
      (getLast?_pyTrim_not_ws w.data)
    apply ensureCrs_of_startsWith _ _ |>.trans hstrip
    rw [hstrip]
    simp only [pyStartsWithLt, String.data_append, crs_header_data,
      List.cons_append, List.head?_cons, decide_eq_true_eq]

/-! ### RDF data model: namespaces, nodes, triples, graphs -/

/-- `GEOLOD[...]` — project namespace (`NS["geolod"]` in `geo_lod_utils.py`). -/
def geolod (l : String) : String := "http://w3id.org/geo-lod/" ++ l

def sosaNS (l : String) : String := "http://www.w3.org/ns/sosa/" ++ l
def geoNS (l : String) : String := "http://www.opengis.net/ont/geosparql#" ++ l
def sfNS (l : String) : String := "http://www.opengis.net/ont/sf#" ++ l
def qudtNS (l : String) : String := "http://qudt.org/schema/qudt/" ++ l
def unitNS (l : String) : String := "http://qudt.org/vocab/unit/" ++ l
def crmNS (l : String) : String := "http://www.cidoc-crm.org/cidoc-crm/" ++ l
def crmsciNS (l : String) : String := "http://www.ics.forth.gr/isl/CRMsci/" ++ l
def dctNS (l : String) : String := "http://purl.org/dc/terms/" ++ l
def dcatNS (l : String) : String := "http://www.w3.org/ns/dcat#" ++ l
def provNS (l : String) : String := "http://www.w3.org/ns/prov#" ++ l
def rdfNS (l : String) : String :=
  "http://www.w3.org/1999/02/22-rdf-syntax-ns#" ++ l
def rdfsNS (l : String) : String := "http://www.w3.org/2000/01/rdf-schema#" ++ l
def xsdNS (l : String) : String := "http://www.w3.org/2001/XMLSchema#" ++ l

/-- An RDF object: a URI reference or a literal.  Numeric literals carry the
exact decimal value (Python `round` results) and their datatype URI; text
literals carry a language tag (empty for plain literals); `typed` literals
carry a lexical form and datatype URI (dates, WKT strings, ...). -/
inductive Node where
  | uri (s : String)
  | num (q : ℚ) (dtype : String)
  | text (s : String) (lang : String)
  | typed (s : String) (dtype : String)
deriving DecidableEq, Repr

/-- One RDF statement. -/
structure Triple where
  subj : String
  pred : String
  obj : Node
deriving DecidableEq, Repr

/-- An `rdflib.Graph`: a set of triples (rdflib stores triples set-like;
`add` of a present triple is a no-op). -/
abbrev RdfGraph := Finset Triple

/-- `g.add(t)`. -/
def graphAdd (g : RdfGraph) (t : Triple) : RdfGraph := insert t g

/-- Add a list of triples in order (repeated `g.add(...)` calls). -/
def graphAddAll (g : RdfGraph) (ts : List Triple) : RdfGraph :=
  ts.foldl graphAdd g

/-- `for triple in g: combined.add(triple)` from `export_sisal_rdf`:
fold every triple of `g` into `combined`.  The loop iterates the source
graph in some order; `l` is that iteration sequence, so the results below
hold for every iteration order rdflib may choose. -/
def mergeGraph (combined : RdfGraph) (l : List Triple) : RdfGraph :=
  graphAddAll combined l

/-- Folding a list of per-dataset graphs into the accumulator
(steps 3-4 of `export_sisal_rdf`), each given by its iteration sequence. -/
def mergeAll (combined : RdfGraph) (gs : List (List Triple)) : RdfGraph :=
  gs.foldl mergeGraph combined

theorem graphAddAll_eq_union (c : RdfGraph) (l : List Triple) :
    graphAddAll c l = c ∪ l.toFinset := by
  induction l generalizing c with
  | nil => simp [graphAddAll]
  | cons t ts ih =>
    simp only [graphAddAll, List.foldl_cons] at ih ⊢
    rw [ih (graphAdd c t)]
    simp [graphAdd, Finset.union_insert, Finset.insert_union]

theorem mergeGraph_eq_union (c : RdfGraph) (g : RdfGraph) (l : List Triple)
    (hl : l.toFinset = g) : mergeGraph c l = c ∪ g := by
  rw [mergeGraph, graphAddAll_eq_union, hl]

/-- `add_feature_collection` from `geo_lod_utils.py`: type the collection,
label it, then add one `rdfs:member` link per member. -/
def add_feature_collection (g : RdfGraph) (collection_uri : String)
    (label : String) (members : List String) : RdfGraph :=
  let g1 := graphAdd g ⟨collection_uri, rdfNS "type", .uri (geoNS "FeatureCollection")⟩
  let g2 := graphAdd g1 ⟨collection_uri, rdfsNS "label", .text label "en"⟩
  members.foldl
    (fun g m => graphAdd g ⟨collection_uri, rdfsNS "member", .uri m⟩) g2

/-! ### Smoothing: pandas rolling median, scipy Savitzky-Golay boundary -/

/-- Median of a list of rationals, as `pandas` computes it: sort, take the
middle element (odd length) or the mean of the two middle elements (even). -/
def medianQ (l : List ℚ) : ℚ :=
  let s := l.insertionSort (· ≤ ·)
  let n := s.length
  if n % 2 = 1 then s.getD (n / 2) 0
  else (s.getD (n / 2 - 1) 0 + s.getD (n / 2) 0) / 2

/-- The centered window of size `w` at index `i`
(`pandas.Series.rolling(window=w, center=True)`): indices
`i - (w-1)/2` through `min (n-1) (i + w/2)`, clipped to the series. -/
def rollingWin (w : ℕ) (xs : List ℚ) (i : ℕ) : List ℚ :=
  let lo := i - (w - 1) / 2
  let hi := min (xs.length - 1) (i + w / 2)
  (xs.drop lo).take (hi + 1 - lo)

/-- `pd.Series(xs).rolling(window=w, center=True, min_periods=minp).median()`:
one output slot per input value, `none` (NaN) when the window holds fewer
than `minp` observations. -/
def rollingMedian (w minp : ℕ) (xs : List ℚ) : List (Option ℚ) :=
  (List.range xs.length).map (fun i =>
    let win := rollingWin w xs i
    if minp ≤ win.length then some (medianQ win) else none)

/-- The same rolling median with `min_periods=1`, where every slot is
defined (see `rollingMedian_one_eq`): the form used in `build_epica_rdf`. -/
def rollingMedianT (w : ℕ) (xs : List ℚ) : List ℚ :=
  (List.range xs.length).map (fun i => medianQ (rollingWin w xs i))

theorem rollingWin_length_pos (w : ℕ) (xs : List ℚ) (i : ℕ)
    (hw : 1 ≤ w) (hi : i < xs.length) : 1 ≤ (rollingWin w xs i).length := by
  have hlo : i - (w - 1) / 2 ≤ i := Nat.sub_le _ _
  simp only [rollingWin, List.length_take, List.length_drop]
  omega

theorem rollingMedian_one_eq (w : ℕ) (xs : List ℚ) (hw : 1 ≤ w) :
    rollingMedian w 1 xs = (rollingMedianT w xs).map some := by
  simp only [rollingMedian, rollingMedianT, List.map_map]
  apply List.map_congr_left
  intro i hi
  rw [List.mem_range] at hi
  simp [rollingWin_length_pos w xs i hw hi]

/-- The type of the external Savitzky-Golay filter
(`scipy.signal.savgol_filter(x, window_length, polyorder)`): it either
returns a smoothed series or raises. -/
def SgFun : Type := ℕ → ℕ → List ℚ → Except String (List ℚ)

/-- Modelled from the spec: `scipy.signal.savgol_filter` is an external
collaborator (spec sections 1 and 4.5, "numerical smoothing filters ...
consumed as a pure function producing one smoothed value per input value");
per the error taxonomy (spec section 7) it fails exactly when the window
length exceeds the available data or the window is invalid for the filter
(polyorder not below the window length).  On success this witness model
returns the input series; the theorems below never depend on the returned
values, only on this success/failure boundary and the length contract. -/
def sgModel : SgFun := fun window polyorder xs =>
  if window ≤ xs.length ∧ polyorder < window then .ok xs
  else .error "window_length is too large for the given data"

/-! ### `EPICA/plot_epica_from_tab.py` — `build_epica_rdf` -/

/-- One row of an EPICA measurement table: the three columns consumed by
`build_epica_rdf` (depth, age, measured value), each possibly NaN. -/
structure ERow where
  depth : Option ℚ
  age : Option ℚ
  val : Option ℚ
deriving DecidableEq, Repr

/-- `df.dropna(subset=[value, age, depth]).reset_index(drop=True)`: keep the
rows where all three fields are present, as `(value, age, depth)`. -/
def dropnaRows (rows : List ERow) : List (ℚ × ℚ × ℚ) :=
  rows.filterMap (fun r =>
    match r.val, r.age, r.depth with
    | some v, some a, some d => some (v, a, d)
    | _, _, _ => none)

/-- `GEOLOD[f"Obs_CH4_{i:04d}"]`. -/
def epicaCH4Id (i : ℕ) : String := geolod ("Obs_CH4_" ++ pad 4 i)

/-- `GEOLOD[f"Obs_d18O_{i:04d}"]`. -/
def epicaD18OId (i : ℕ) : String := geolod ("Obs_d18O_" ++ pad 4 i)

/-- `GEOLOD[f"RollingMedian_w{ROLLING_WINDOW}"]` (EPICA, line 804). -/
def epicaMedianNode (rw : ℕ) : String := geolod ("RollingMedian_w" ++ pyStr rw)

/-- `GEOLOD[f"SavitzkyGolay_w{SG_WINDOW}_p{SG_POLYORDER}"]` (EPICA, line 824). -/
def epicaSavgolNode (sgw sgp : ℕ) : String :=
  geolod ("SavitzkyGolay_w" ++ pyStr sgw ++ "_p" ++ pyStr sgp)

/-- Dataset-level triples of `build_epica_rdf`, part 1 (see `epicaStaticTriples`). -/
def epicaStaticPart1 (today : String) (rw sgw sgp : ℕ) : List Triple :=
  let dataset := geolod "EPICA_DomeC_Dataset"
  let src_ch4 := "https://doi.org/10.1594/PANGAEA.472484"
  let src_d18o := "https://doi.org/10.1594/PANGAEA.961024"
  let catalog := geolod "EPICA_DomeC_Catalog"
  let ds_ch4 := geolod "EPICA_DomeC_CH4_Dataset"
  let ds_d18o := geolod "EPICA_DomeC_d18O_Dataset"
  let site := geolod "EpicaDomeC_Site"
  let geom := geolod "EpicaDomeC_Geometry"
  let core := geolod "EpicaDomeC_IceCore"
  let campaign := geolod "EPICA_DomeCampaign_1996_2004"
  let cc_by_3 := "https://creativecommons.org/licenses/by/3.0/"
  [ ⟨dataset, rdfNS "type", .uri (dcatNS "Dataset")⟩,
    ⟨dataset, dctNS "title",
      .text "EPICA Dome C Ice Core – CH₄ and δ¹⁸O Records" "en"⟩,
    ⟨dataset, dctNS "description",
      .text ("Methane (CH4) and stable water isotope (δ18O) measurements " ++
        "from the EPICA Dome C ice core, East Antarctica, covering the " ++
        "last ~800,000 years (ca. 8 glacial cycles).") "en"⟩,
    ⟨dataset, dctNS "license", .uri cc_by_3⟩,
    ⟨dataset, dctNS "publisher",
      .text "PANGAEA – Data Publisher for Earth & Environmental Science" ""⟩,
    ⟨dataset, dctNS "created", .typed today (xsdNS "date")⟩,
    ⟨src_ch4, rdfNS "type", .uri (dctNS "BibliographicResource")⟩,
    ⟨src_ch4, dctNS "title",
      .text "EPICA Dome C Methane Record (Spahni & Stocker 2006)" "en"⟩,
    ⟨src_ch4, dctNS "creator", .text "Spahni, R.; Stocker, T.F." ""⟩,
    ⟨src_ch4, dctNS "date", .typed "2006" (xsdNS "gYear")⟩,
    ⟨dataset, dctNS "source", .uri src_ch4⟩,
    ⟨src_d18o, rdfNS "type", .uri (dctNS "BibliographicResource")⟩,
    ⟨src_d18o, dctNS "title",
      .text "EPICA Dome C δ18O Record on AICC2023 (Bouchet et al. 2023)" "en"⟩,
    ⟨src_d18o, dctNS "creator", .text "Bouchet, M. et al." ""⟩,
    ⟨src_d18o, dctNS "date", .typed "2023" (xsdNS "gYear")⟩,
    ⟨dataset, dctNS "source", .uri src_d18o⟩ ]

/-- Dataset-level triples of `build_epica_rdf`, part 2 (see `epicaStaticTriples`). -/
def epicaStaticPart2 (today : String) (rw sgw sgp : ℕ) : List Triple :=
  let dataset := geolod "EPICA_DomeC_Dataset"
  let src_ch4 := "https://doi.org/10.1594/PANGAEA.472484"
  let src_d18o := "https://doi.org/10.1594/PANGAEA.961024"
  let catalog := geolod "EPICA_DomeC_Catalog"
  let ds_ch4 := geolod "EPICA_DomeC_CH4_Dataset"
  let ds_d18o := geolod "EPICA_DomeC_d18O_Dataset"
  let site := geolod "EpicaDomeC_Site"
  let geom := geolod "EpicaDomeC_Geometry"
  let core := geolod "EpicaDomeC_IceCore"
  let campaign := geolod "EPICA_DomeCampaign_1996_2004"
  let cc_by_3 := "https://creativecommons.org/licenses/by/3.0/"
  [ ⟨catalog, rdfNS "type", .uri (dcatNS "Catalog")⟩,
    ⟨catalog, rdfsNS "label",
      .text "EPICA Dome C Ice Core – Linked Data Catalogue" "en"⟩,
    ⟨catalog, dctNS "title",
      .text "EPICA Dome C Ice Core – Linked Data Catalogue" "en"⟩,
    ⟨catalog, dctNS "description",
      .text ("DCAT catalogue aggregating palaeoclimate observation datasets " ++
        "from the EPICA Dome C ice core, East Antarctica. Includes CH₄ and " ++
        "δ¹⁸O records with raw and smoothed values, full provenance, site " ++
        "geometry and chronology metadata.") "en"⟩,
    ⟨catalog, dctNS "publisher",
      .text "PANGAEA – Data Publisher for Earth & Environmental Science" ""⟩,
    ⟨catalog, dctNS "license", .uri cc_by_3⟩,
    ⟨catalog, dctNS "created", .typed today (xsdNS "date")⟩,
    ⟨catalog, dcatNS "dataset", .uri dataset⟩,
    ⟨ds_ch4, rdfNS "type", .uri (dcatNS "Dataset")⟩,
    ⟨ds_ch4, dctNS "title",
      .text "EPICA Dome C – Methane (CH₄) Record" "en"⟩,
    ⟨ds_ch4, dctNS "description",
      .text ("CH₄ concentration measurements from the EPICA Dome C ice core " ++
        "on the EDC2 chronology (0–649 ka BP, 736 data points).") "en"⟩,
    ⟨ds_ch4, dctNS "source", .uri src_ch4⟩,
    ⟨ds_ch4, dctNS "license", .uri cc_by_3⟩,
    ⟨ds_ch4, dcatNS "distribution", .uri src_ch4⟩,
    ⟨catalog, dcatNS "dataset", .uri ds_ch4⟩,
    ⟨ds_d18o, rdfNS "type", .uri (dcatNS "Dataset")⟩ ]

/-- Dataset-level triples of `build_epica_rdf`, part 3 (see `epicaStaticTriples`). -/
def epicaStaticPart3 (today : String) (rw sgw sgp : ℕ) : List Triple :=
  let dataset := geolod "EPICA_DomeC_Dataset"
  let src_ch4 := "https://doi.org/10.1594/PANGAEA.472484"
  let src_d18o := "https://doi.org/10.1594/PANGAEA.961024"
  let catalog := geolod "EPICA_DomeC_Catalog"
  let ds_ch4 := geolod "EPICA_DomeC_CH4_Dataset"
  let ds_d18o := geolod "EPICA_DomeC_d18O_Dataset"
  let site := geolod "EpicaDomeC_Site"
  let geom := geolod "EpicaDomeC_Geometry"
  let core := geolod "EpicaDomeC_IceCore"
  let campaign := geolod "EPICA_DomeCampaign_1996_2004"
  let cc_by_3 := "https://creativecommons.org/licenses/by/3.0/"
  [ ⟨ds_d18o, dctNS "title",
      .text "EPICA Dome C – Stable Water Isotope (δ¹⁸O) Record" "en"⟩,
    ⟨ds_d18o, dctNS "description",
      .text ("δ¹⁸O measurements from the EPICA Dome C ice core " ++
        "on the AICC2023 chronology (102–806 ka BP, 1378 data points).") "en"⟩,
    ⟨ds_d18o, dctNS "source", .uri src_d18o⟩,
    ⟨ds_d18o, dctNS "license", .uri cc_by_3⟩,
    ⟨ds_d18o, dcatNS "distribution", .uri src_d18o⟩,
    ⟨catalog, dcatNS "dataset", .uri ds_d18o⟩,
    ⟨site, rdfNS "type", .uri (crmNS "E53_Place")⟩,
    ⟨site, rdfNS "type", .uri (crmNS "E27_Site")⟩,
    ⟨site, rdfsNS "label", .text "EPICA Dome C, East Antarctica" "en"⟩,
    ⟨site, crmNS "P87_is_identified_by",
      .typed "75°06\x27S, 123°21\x27E" (xsdNS "string")⟩,
    ⟨geom, rdfNS "type", .uri (sfNS "Point")⟩,
    ⟨geom, geoNS "asWKT", .typed "POINT(123.35 -75.1)" (geoNS "wktLiteral")⟩,
    ⟨site, geoNS "hasGeometry", .uri geom⟩,
    ⟨core, rdfNS "type", .uri (sosaNS "Sample")⟩,
    ⟨core, rdfNS "type", .uri (crmNS "E22_Human-Made_Object")⟩,
    ⟨core, rdfsNS "label", .text "EPICA Dome C Ice Core" "en"⟩ ]

/-- Dataset-level triples of `build_epica_rdf`, part 4 (see `epicaStaticTriples`). -/
def epicaStaticPart4 (today : String) (rw sgw sgp : ℕ) : List Triple :=
  let dataset := geolod "EPICA_DomeC_Dataset"
  let src_ch4 := "https://doi.org/10.1594/PANGAEA.472484"
  let src_d18o := "https://doi.org/10.1594/PANGAEA.961024"
  let catalog := geolod "EPICA_DomeC_Catalog"
  let ds_ch4 := geolod "EPICA_DomeC_CH4_Dataset"
  let ds_d18o := geolod "EPICA_DomeC_d18O_Dataset"
  let site := geolod "EpicaDomeC_Site"
  let geom := geolod "EpicaDomeC_Geometry"
  let core := geolod "EpicaDomeC_IceCore"
  let campaign := geolod "EPICA_DomeCampaign_1996_2004"
  let cc_by_3 := "https://creativecommons.org/licenses/by/3.0/"
  [ ⟨core, sosaNS "isSampleOf", .uri site⟩,
    ⟨core, crmNS "P53_has_former_or_current_location", .uri site⟩,
    ⟨core, crmNS "P2_has_type", .text "Ice Core" "en"⟩,
    ⟨campaign, rdfNS "type", .uri (crmNS "E7_Activity")⟩,
    ⟨campaign, rdfNS "type", .uri (crmsciNS "S1_Matter_Removal")⟩,
    ⟨campaign, rdfsNS "label",
      .text "EPICA Dome C drilling campaign 1996–2004" "en"⟩,
    ⟨campaign, crmNS "P7_took_place_at", .uri site⟩,
    ⟨campaign, crmNS "P4_has_time-span", .typed "1996/2004" (xsdNS "string")⟩,
    ⟨campaign, crmsciNS "O1_removed", .uri core⟩,
    ⟨geolod "CH4Concentration", rdfNS "type", .uri (sosaNS "ObservableProperty")⟩,
    ⟨geolod "CH4Concentration", rdfNS "type", .uri (crmsciNS "S9_Property_Type")⟩,
    ⟨geolod "CH4Concentration", rdfsNS "label",
      .text "Methane concentration (CH₄)" "en"⟩,
    ⟨geolod "CH4Concentration", qudtNS "unit", .uri (unitNS "PPB")⟩,
    ⟨geolod "Delta18O", rdfNS "type", .uri (sosaNS "ObservableProperty")⟩,
    ⟨geolod "Delta18O", rdfNS "type", .uri (crmsciNS "S9_Property_Type")⟩,
    ⟨geolod "Delta18O", rdfsNS "label",
      .text "Stable water isotope ratio (δ¹⁸O)" "en"⟩ ]

/-- Dataset-level triples of `build_epica_rdf`, part 5 (see `epicaStaticTriples`). -/
def epicaStaticPart5 (today : String) (rw sgw sgp : ℕ) : List Triple :=
  let dataset := geolod "EPICA_DomeC_Dataset"
  let src_ch4 := "https://doi.org/10.1594/PANGAEA.472484"
  let src_d18o := "https://doi.org/10.1594/PANGAEA.961024"
  let catalog := geolod "EPICA_DomeC_Catalog"
  let ds_ch4 := geolod "EPICA_DomeC_CH4_Dataset"
  let ds_d18o := geolod "EPICA_DomeC_d18O_Dataset"
  let site := geolod "EpicaDomeC_Site"
  let geom := geolod "EpicaDomeC_Geometry"
  let core := geolod "EpicaDomeC_IceCore"
  let campaign := geolod "EPICA_DomeCampaign_1996_2004"
  let cc_by_3 := "https://creativecommons.org/licenses/by/3.0/"
  [ ⟨geolod "Delta18O", qudtNS "unit", .uri (unitNS "PERMILLE")⟩,
    ⟨geolod "EDC2_Chronology", rdfNS "type", .uri (crmsciNS "S6_Data_Evaluation")⟩,
    ⟨geolod "EDC2_Chronology", rdfsNS "label",
      .text "EDC2 ice core chronology (Schwander et al. 2001)" "en"⟩,
    ⟨geolod "AICC2023_Chronology", rdfNS "type",
      .uri (crmsciNS "S6_Data_Evaluation")⟩,
    ⟨geolod "AICC2023_Chronology", rdfsNS "label",
      .text "AICC2023 ice core chronology (Bouchet et al. 2023)" "en"⟩,
    ⟨epicaMedianNode rw, rdfNS "type", .uri (crmsciNS "S6_Data_Evaluation")⟩,
    ⟨epicaMedianNode rw, rdfsNS "label",
      .text ("Rolling median filter, window=" ++ pyStr rw ++ " pts") "en"⟩,
    ⟨epicaMedianNode rw, geolod "windowSize", .num (rw : ℚ) (xsdNS "integer")⟩,
    ⟨epicaMedianNode rw, dctNS "references",
      .uri "https://doi.org/10.1145/1968.1969"⟩,
    ⟨epicaSavgolNode sgw sgp, rdfNS "type",
      .uri (crmsciNS "S6_Data_Evaluation")⟩,
    ⟨epicaSavgolNode sgw sgp, rdfsNS "label",
      .text ("Savitzky-Golay filter, window=" ++ pyStr sgw ++
        " pts, polyorder=" ++ pyStr sgp) "en"⟩,
    ⟨epicaSavgolNode sgw sgp, geolod "windowSize",
      .num (sgw : ℚ) (xsdNS "integer")⟩,
    ⟨epicaSavgolNode sgw sgp, geolod "polyOrder",
      .num (sgp : ℚ) (xsdNS "integer")⟩,
    ⟨epicaSavgolNode sgw sgp, dctNS "references",
      .uri "https://doi.org/10.1021/ac60214a047"⟩,
    ⟨geolod "MeasurementType_CH4", rdfNS "type", .uri (geolod "MeasurementType")⟩,
    ⟨geolod "MeasurementType_CH4", rdfsNS "label",
      .text "Methane (CH₄) measurement" "en"⟩ ]

/-- Dataset-level triples of `build_epica_rdf`, part 6 (see `epicaStaticTriples`). -/
def epicaStaticPart6 (today : String) (rw sgw sgp : ℕ) : List Triple :=
  let dataset := geolod "EPICA_DomeC_Dataset"
  let src_ch4 := "https://doi.org/10.1594/PANGAEA.472484"
  let src_d18o := "https://doi.org/10.1594/PANGAEA.961024"
  let catalog := geolod "EPICA_DomeC_Catalog"
  let ds_ch4 := geolod "EPICA_DomeC_CH4_Dataset"
  let ds_d18o := geolod "EPICA_DomeC_d18O_Dataset"
  let site := geolod "EpicaDomeC_Site"
  let geom := geolod "EpicaDomeC_Geometry"
  let core := geolod "EpicaDomeC_IceCore"
  let campaign := geolod "EPICA_DomeCampaign_1996_2004"
  let cc_by_3 := "https://creativecommons.org/licenses/by/3.0/"
  [ ⟨geolod "MeasurementType_CH4", rdfsNS "comment",
      .text ("Indicates that this observation is a CH₄ concentration " ++
        "measurement from trapped air bubbles in the ice core.") "en"⟩,
    ⟨geolod "MeasurementType_d18O", rdfNS "type", .uri (geolod "MeasurementType")⟩,
    ⟨geolod "MeasurementType_d18O", rdfsNS "label",
      .text "δ¹⁸O stable water isotope measurement" "en"⟩,
    ⟨geolod "MeasurementType_d18O", rdfsNS "comment",
      .text ("Indicates that this observation is a stable water isotope " ++
        "ratio (δ¹⁸O) measurement from the ice matrix.") "en"⟩ ]

/-- The dataset-level triples of `build_epica_rdf` (lines 547-877): catalog,
datasets, sources, site, geometry, ice core, campaign, observed properties,
chronologies, smoothing-method individuals and measurement types, in source
order (split into parts only to keep elaboration tractable).  `today` is the
`datetime.now().strftime("%Y-%m-%d")` string; `rw`, `sgw`, `sgp` are the
module globals `ROLLING_WINDOW`, `SG_WINDOW`, `SG_POLYORDER`. -/
def epicaStaticTriples (today : String) (rw sgw sgp : ℕ) : List Triple :=
  epicaStaticPart1 today rw sgw sgp ++ epicaStaticPart2 today rw sgw sgp ++ epicaStaticPart3 today rw sgw sgp ++ epicaStaticPart4 today rw sgw sgp ++ epicaStaticPart5 today rw sgw sgp ++ epicaStaticPart6 today rw sgw sgp

/-- Triples emitted for one valid CH4 row `(v, a, d)` at loop index `i`
with precomputed smoothed values `m` (rolling median) and `s`
(Savitzky-Golay) — `build_epica_rdf` lines 896-954, in source order. -/
def epicaCH4ObsTriples (rw sgw sgp i : ℕ) (v a d m s : ℚ) : List Triple :=
  let obs := epicaCH4Id i
  [ ⟨obs, rdfsNS "label",
      .text ("CH₄ observation " ++ pad 4 i ++ " (" ++ fmtFixed 1 a ++
        " ka BP)") "en"⟩,
    ⟨obs, geolod "measurementType", .uri (geolod "MeasurementType_CH4")⟩,
    ⟨obs, rdfNS "type", .uri (sosaNS "Observation")⟩,
    ⟨obs, rdfNS "type", .uri (crmsciNS "S4_Observation")⟩,
    ⟨obs, sosaNS "hasFeatureOfInterest", .uri (geolod "EpicaDomeC_IceCore")⟩,
    ⟨obs, sosaNS "observedProperty", .uri (geolod "CH4Concentration")⟩,
    ⟨obs, sosaNS "hasSimpleResult", .num (rndHE 2 v) (xsdNS "decimal")⟩,
    ⟨obs, sosaNS "resultTime", .num (rndHE 4 a) (xsdNS "decimal")⟩,
    ⟨obs, geolod "atDepth_m", .num (rndHE 2 d) (xsdNS "decimal")⟩,
    ⟨obs, geolod "ageChronology", .uri (geolod "EDC2_Chronology")⟩,
    ⟨obs, qudtNS "unit", .uri (unitNS "PPB")⟩,
    ⟨obs, geolod "smoothedValue_rollingMedian",
      .num (rndHE 2 m) (xsdNS "decimal")⟩,
    ⟨obs, geolod "smoothedValue_savgol", .num (rndHE 2 s) (xsdNS "decimal")⟩,
    ⟨obs, geolod "smoothingMethod_median", .uri (epicaMedianNode rw)⟩,
    ⟨obs, geolod "smoothingMethod_savgol", .uri (epicaSavgolNode sgw sgp)⟩,
    ⟨obs, provNS "wasDerivedFrom", .uri "https://doi.org/10.1594/PANGAEA.472484"⟩,
    ⟨obs, crmNS "P7_took_place_at", .uri (geolod "EpicaDomeC_Site")⟩,
    ⟨geolod "EPICA_DomeC_Dataset", geolod "hasObservation", .uri obs⟩,
    ⟨geolod "EPICA_DomeC_CH4_Dataset", dcatNS "record", .uri obs⟩ ]

/-- Triples emitted for one valid d18O row — `build_epica_rdf` lines
972-1029, in source order (result and smoothed values rounded to 5 places). -/
def epicaD18OObsTriples (rw sgw sgp i : ℕ) (v a d m s : ℚ) : List Triple :=
  let obs := epicaD18OId i
  [ ⟨obs, rdfsNS "label",
      .text ("δ¹⁸O observation " ++ pad 4 i ++ " (" ++ fmtFixed 1 a ++
        " ka BP)") "en"⟩,
    ⟨obs, geolod "measurementType", .uri (geolod "MeasurementType_d18O")⟩,
    ⟨obs, rdfNS "type", .uri (sosaNS "Observation")⟩,
    ⟨obs, rdfNS "type", .uri (crmsciNS "S4_Observation")⟩,
    ⟨obs, sosaNS "hasFeatureOfInterest", .uri (geolod "EpicaDomeC_IceCore")⟩,
    ⟨obs, sosaNS "observedProperty", .uri (geolod "Delta18O")⟩,
    ⟨obs, sosaNS "hasSimpleResult", .num (rndHE 5 v) (xsdNS "decimal")⟩,
    ⟨obs, sosaNS "resultTime", .num (rndHE 4 a) (xsdNS "decimal")⟩,
    ⟨obs, geolod "atDepth_m", .num (rndHE 2 d) (xsdNS "decimal")⟩,
    ⟨obs, geolod "ageChronology", .uri (geolod "AICC2023_Chronology")⟩,
    ⟨obs, qudtNS "unit", .uri (unitNS "PERMILLE")⟩,
    ⟨obs, geolod "smoothedValue_rollingMedian",
      .num (rndHE 5 m) (xsdNS "decimal")⟩,
    ⟨obs, geolod "smoothedValue_savgol", .num (rndHE 5 s) (xsdNS "decimal")⟩,
    ⟨obs, geolod "smoothingMethod_median", .uri (epicaMedianNode rw)⟩,
    ⟨obs, geolod "smoothingMethod_savgol", .uri (epicaSavgolNode sgw sgp)⟩,
    ⟨obs, provNS "wasDerivedFrom", .uri "https://doi.org/10.1594/PANGAEA.961024"⟩,
    ⟨obs, crmNS "P7_took_place_at", .uri (geolod "EpicaDomeC_Site")⟩,
    ⟨geolod "EPICA_DomeC_Dataset", geolod "hasObservation", .uri obs⟩,
    ⟨geolod "EPICA_DomeC_d18O_Dataset", dcatNS "record", .uri obs⟩ ]

/-- The CH4 observation section of `build_epica_rdf` (lines 879-954):
filter the valid rows, precompute the rolling-median series and the
Savitzky-Golay series (the latter unguarded: an exception propagates,
aborting the whole graph build), then emit one observation per row. -/
def buildEpicaCH4Section (rw sgw sgp : ℕ) (sg : SgFun) (rows : List ERow) :
    Except String (List Triple) :=
  let valid := dropnaRows rows
  let vals := valid.map (fun r => r.1)
  let med := rollingMedianT rw vals
  match sg sgw sgp vals with
  | .error e => .error e
  | .ok sgv =>
    .ok ((valid.zip (med.zip sgv)).enum.flatMap
      (fun x => match x with
        | (i, (v, a, d), (m, s)) => epicaCH4ObsTriples rw sgw sgp i v a d m s))

/-- The d18O observation section of `build_epica_rdf` (lines 956-1029),
same shape as the CH4 section. -/
def buildEpicaD18OSection (rw sgw sgp : ℕ) (sg : SgFun) (rows : List ERow) :
    Except String (List Triple) :=
  let valid := dropnaRows rows
  let vals := valid.map (fun r => r.1)
  let med := rollingMedianT rw vals
  match sg sgw sgp vals with
  | .error e => .error e
  | .ok sgv =>
    .ok ((valid.zip (med.zip sgv)).enum.flatMap
      (fun x => match x with
        | (i, (v, a, d), (m, s)) => epicaD18OObsTriples rw sgw sgp i v a d m s))

/-- `build_epica_rdf(df_ch4, df_d18o)`: dataset-level triples, then the CH4
observations, then the d18O observations.  A smoothing exception anywhere
aborts the whole build (there is no try/except around `savgol_filter` in
this builder), so no graph is produced at all in that case. -/
def build_epica_rdf (today : String) (rw sgw sgp : ℕ) (sg : SgFun)
    (ch4Rows d18oRows : List ERow) : Except String (List Triple) :=
  match buildEpicaCH4Section rw sgw sgp sg ch4Rows with
  | .error e => .error e
  | .ok ts1 =>
    match buildEpicaD18OSection rw sgw sgp sg d18oRows with
    | .error e => .error e
    | .ok ts2 => .ok (epicaStaticTriples today rw sgw sgp ++ ts1 ++ ts2)

/-! ### `SISAL/plot_sisal_from_csv.py` — `build_sisal_rdf` -/

/-- One SISAL measurement row: the columns consumed by `build_sisal_rdf`
(`d18o_permille`, `d13c_permille`, `age_ka`, `depth_sample`), each
possibly NaN. -/
structure SRow where
  d18o : Option ℚ
  d13c : Option ℚ
  age : Option ℚ
  depth : Option ℚ
deriving DecidableEq, Repr

/-- One `df.groupby("entity_id")` group: the entity id, its name and its
rows (groupby iterates the groups in ascending entity order). -/
structure SEntity where
  entityId : ℕ
  entityName : String
  rows : List SRow
deriving DecidableEq, Repr

/-- `GEOLOD[f"Obs_d18O_{site_slug}_e{entity_id}_{obs_d18o_total:05d}"]`. -/
def sisalD18OId (slug : String) (e k : ℕ) : String :=
  geolod ("Obs_d18O_" ++ slug ++ "_e" ++ pyStr e ++ "_" ++ pad 5 k)

/-- `GEOLOD[f"Obs_d13C_{site_slug}_e{entity_id}_{obs_d13c_total:05d}"]`. -/
def sisalD13CId (slug : String) (e k : ℕ) : String :=
  geolod ("Obs_d13C_" ++ slug ++ "_e" ++ pyStr e ++ "_" ++ pad 5 k)

/-- `GEOLOD[f"RollingMedian_w{ROLLING_WINDOW}"]` (SISAL, line 758). -/
def sisalMedianNode (rw : ℕ) : String := geolod ("RollingMedian_w" ++ pyStr rw)

/-- `GEOLOD[f"SavitzkyGolay_w{SG_WINDOW}_p{SG_POLYORDER}"]` (SISAL, line 768). -/
def sisalSavgolNode (sgw sgp : ℕ) : String :=
  geolod ("SavitzkyGolay_w" ++ pyStr sgw ++ "_p" ++ pyStr sgp)

/-- Site-level triples of `build_sisal_rdf` (lines 726-807): cave, optional
geometry (only when latitude/longitude are present and non-NaN), smoothing
instances, measurement types, observable properties and the per-site U-Th
chronology, in source order. -/
def sisalSiteTriples (rw sgw sgp : ℕ) (siteName slug : String) (siteId : ℕ)
    (latlon : Option (ℚ × ℚ)) : List Triple :=
  [ ⟨geolod ("Cave_" ++ slug), rdfNS "type", .uri (geolod "Cave")⟩,
    ⟨geolod ("Cave_" ++ slug), rdfsNS "label", .text siteName "en"⟩,
    ⟨geolod ("Cave_" ++ slug), geolod "siteId",
      .num (siteId : ℚ) (xsdNS "integer")⟩ ] ++
  (match latlon with
   | some (lat, lon) =>
     [ ⟨geolod ("Cave_" ++ slug ++ "_Geometry"), rdfNS "type", .uri (sfNS "Point")⟩,
       ⟨geolod ("Cave_" ++ slug ++ "_Geometry"), geoNS "asWKT",
         .typed ("<" ++ CRS_WGS84 ++ "> POINT(" ++ fmtFixed 6 lon ++ " " ++
           fmtFixed 6 lat ++ ")") (geoNS "wktLiteral")⟩,
       ⟨geolod ("Cave_" ++ slug), geoNS "hasGeometry",
         .uri (geolod ("Cave_" ++ slug ++ "_Geometry"))⟩ ]
   | none => []) ++
  [ ⟨sisalMedianNode rw, rdfNS "type", .uri (geolod "RollingMedianFilter")⟩,
    ⟨sisalMedianNode rw, geolod "windowSize", .num (rw : ℚ) (xsdNS "integer")⟩,
    ⟨sisalSavgolNode sgw sgp, rdfNS "type", .uri (geolod "SavitzkyGolayFilter")⟩,
    ⟨sisalSavgolNode sgw sgp, geolod "windowSize",
      .num (sgw : ℚ) (xsdNS "integer")⟩,
    ⟨sisalSavgolNode sgw sgp, geolod "polyOrder",
      .num (sgp : ℚ) (xsdNS "integer")⟩,
    ⟨geolod "MeasurementType_d18O", rdfNS "type", .uri (geolod "MeasurementType")⟩,
    ⟨geolod "MeasurementType_d18O", rdfsNS "label",
      .text "delta-18O Measurement" "en"⟩,
    ⟨geolod "MeasurementType_d13C", rdfNS "type", .uri (geolod "MeasurementType")⟩,
    ⟨geolod "MeasurementType_d13C", rdfsNS "label",
      .text "delta-13C Measurement" "en"⟩,
    ⟨geolod "Delta18O_Speleothem", rdfNS "type", .uri (geolod "Delta18OProperty")⟩,
    ⟨geolod "Delta18O_Speleothem", rdfsNS "label",
      .text "delta-18O (speleothem)" "en"⟩,
    ⟨geolod "Delta13C_Speleothem", rdfNS "type", .uri (geolod "Delta13CProperty")⟩,
    ⟨geolod "Delta13C_Speleothem", rdfsNS "label",
      .text "delta-13C (speleothem)" "en"⟩,
    ⟨geolod ("UThChronology_" ++ slug), rdfNS "type", .uri (geolod "UThChronology")⟩,
    ⟨geolod ("UThChronology_" ++ slug), rdfsNS "label",
      .text ("U-Th Chronology – " ++ siteName) "en"⟩,
    ⟨geolod ("UThChronology_" ++ slug), rdfsNS "comment",
      .text ("Standardised SISAL chronology (linear interpolation / " ++
        "Bchron / Bacon / copRa / StalAge). " ++
        "See SISALv3 repository: " ++
        "https://doi.org/10.5287/ora-2nanwp4rk") "en"⟩ ]

/-- Triples of one d18O observation of `build_sisal_rdf` (lines 850-903):
the depth triple only when `depth_sample` is present, the rolling-median
pair only when the median slot is non-NaN, the Savitzky-Golay pair only
when the (possibly failed) savgol slot is non-None. -/
def sisalD18OObsTriples (rw sgw sgp : ℕ) (slug : String) (e k : ℕ)
    (v a : ℚ) (dep : Option ℚ) (m s : Option ℚ) : List Triple :=
  let obs := sisalD18OId slug e k
  [ ⟨obs, rdfNS "type", .uri (geolod "Delta18OSpeleothemObservation")⟩,
    ⟨obs, sosaNS "hasFeatureOfInterest",
      .uri (geolod ("Speleothem_" ++ slug ++ "_e" ++ pyStr e))⟩,
    ⟨obs, sosaNS "observedProperty", .uri (geolod "Delta18O_Speleothem")⟩,
    ⟨obs, geolod "measurementType", .uri (geolod "MeasurementType_d18O")⟩,
    ⟨obs, geolod "ageKaBP", .num (rndHE 4 a) (xsdNS "decimal")⟩,
    ⟨obs, geolod "measuredValue", .num (rndHE 4 v) (xsdNS "decimal")⟩ ] ++
  (match dep with
   | some dv => [⟨obs, geolod "atDepth_mm", .num (rndHE 3 dv) (xsdNS "decimal")⟩]
   | none => []) ++
  [ ⟨obs, geolod "ageChronologySpeleothem",
      .uri (geolod ("UThChronology_" ++ slug))⟩ ] ++
  (match m with
   | some mv =>
     [ ⟨obs, geolod "smoothedValue_rollingMedian",
         .num (rndHE 4 mv) (xsdNS "decimal")⟩,
       ⟨obs, geolod "smoothingMethod_median", .uri (sisalMedianNode rw)⟩ ]
   | none => []) ++
  (match s with
   | some sv =>
     [ ⟨obs, geolod "smoothedValue_savgol", .num (rndHE 4 sv) (xsdNS "decimal")⟩,
       ⟨obs, geolod "smoothingMethod_savgol", .uri (sisalSavgolNode sgw sgp)⟩ ]
   | none => []) ++
  [ ⟨obs, provNS "wasDerivedFrom", .uri (geolod "SISALv3_DataSource")⟩ ]

/-- Triples of one d13C observation of `build_sisal_rdf` (lines 922-975),
same shape as the d18O case. -/
def sisalD13CObsTriples (rw sgw sgp : ℕ) (slug : String) (e k : ℕ)
    (v a : ℚ) (dep : Option ℚ) (m s : Option ℚ) : List Triple :=
  let obs := sisalD13CId slug e k
  [ ⟨obs, rdfNS "type", .uri (geolod "Delta13CSpeleothemObservation")⟩,
    ⟨obs, sosaNS "hasFeatureOfInterest",
      .uri (geolod ("Speleothem_" ++ slug ++ "_e" ++ pyStr e))⟩,
    ⟨obs, sosaNS "observedProperty", .uri (geolod "Delta13C_Speleothem")⟩,
    ⟨obs, geolod "measurementType", .uri (geolod "MeasurementType_d13C")⟩,
    ⟨obs, geolod "ageKaBP", .num (rndHE 4 a) (xsdNS "decimal")⟩,
    ⟨obs, geolod "measuredValue", .num (rndHE 4 v) (xsdNS "decimal")⟩ ] ++
  (match dep with
   | some dv => [⟨obs, geolod "atDepth_mm", .num (rndHE 3 dv) (xsdNS "decimal")⟩]
   | none => []) ++
  [ ⟨obs, geolod "ageChronologySpeleothem",
      .uri (geolod ("UThChronology_" ++ slug))⟩ ] ++
  (match m with
   | some mv =>
     [ ⟨obs, geolod "smoothedValue_rollingMedian",
         .num (rndHE 4 mv) (xsdNS "decimal")⟩,
       ⟨obs, geolod "smoothingMethod_median", .uri (sisalMedianNode rw)⟩ ]
   | none => []) ++
  (match s with
   | some sv =>
     [ ⟨obs, geolod "smoothedValue_savgol", .num (rndHE 4 sv) (xsdNS "decimal")⟩,
       ⟨obs, geolod "smoothingMethod_savgol", .uri (sisalSavgolNode sgw sgp)⟩ ]
   | none => []) ++
  [ ⟨obs, provNS "wasDerivedFrom", .uri (geolod "SISALv3_DataSource")⟩ ]

/-- `sub18 = grp[grp["d18o_permille"].notna() & grp["age_ka"].notna()]`:
keep the rows with value and age present, as `(value, age, depth?)`. -/
def sisalValidD18O (rows : List SRow) : List (ℚ × ℚ × Option ℚ) :=
  rows.filterMap (fun r =>
    match r.d18o, r.age with
    | some v, some a => some (v, a, r.depth)
    | _, _ => none)

/-- The d13C analogue of `sisalValidD18O`. -/
def sisalValidD13C (rows : List SRow) : List (ℚ × ℚ × Option ℚ) :=
  rows.filterMap (fun r =>
    match r.d13c, r.age with
    | some v, some a => some (v, a, r.depth)
    | _, _ => none)

/-- The d18O block of one entity group (lines 833-903): skip if no valid
rows; otherwise compute the rolling median, try Savitzky-Golay with a local
try/except that substitutes a None series on failure, and emit one
observation per valid row, threading the site-wide counter
`obs_d18o_total` (entered as `k0`, returned advanced). -/
def sisalEntityD18O (rw sgw sgp : ℕ) (sg : SgFun) (slug : String) (e : ℕ)
    (rows : List SRow) (k0 : ℕ) : List Triple × ℕ :=
  let sub := sisalValidD18O rows
  if sub.isEmpty then ([], k0)
  else
    let vals := sub.map (fun r => r.1)
    let med := rollingMedian rw 1 vals
    let sgv := match sg sgw sgp vals with
      | .ok ys => ys.map some
      | .error _ => List.replicate vals.length none
    ((sub.zip (med.zip sgv)).enum.flatMap
      (fun x => match x with
        | (i, (v, a, dep), (m, s)) =>
          sisalD18OObsTriples rw sgw sgp slug e (k0 + i) v a dep m s),
     k0 + sub.length)

/-- The d13C block of one entity group (lines 905-975). -/
def sisalEntityD13C (rw sgw sgp : ℕ) (sg : SgFun) (slug : String) (e : ℕ)
    (rows : List SRow) (k0 : ℕ) : List Triple × ℕ :=
  let sub := sisalValidD13C rows
  if sub.isEmpty then ([], k0)
  else
    let vals := sub.map (fun r => r.1)
    let med := rollingMedian rw 1 vals
    let sgv := match sg sgw sgp vals with
      | .ok ys => ys.map some
      | .error _ => List.replicate vals.length none
    ((sub.zip (med.zip sgv)).enum.flatMap
      (fun x => match x with
        | (i, (v, a, dep), (m, s)) =>
          sisalD13CObsTriples rw sgw sgp slug e (k0 + i) v a dep m s),
     k0 + sub.length)

/-- The speleothem-instance triples of one entity group (lines 819-831). -/
def sisalSpeleothemTriples (siteName slug : String) (ent : SEntity) :
    List Triple :=
  [ ⟨geolod ("Speleothem_" ++ slug ++ "_e" ++ pyStr ent.entityId),
      rdfNS "type", .uri (geolod "Speleothem")⟩,
    ⟨geolod ("Speleothem_" ++ slug ++ "_e" ++ pyStr ent.entityId),
      rdfsNS "label", .text (siteName ++ " – " ++ ent.entityName) "en"⟩,
    ⟨geolod ("Speleothem_" ++ slug ++ "_e" ++ pyStr ent.entityId),
      geolod "entityId", .num (ent.entityId : ℚ) (xsdNS "integer")⟩,
    ⟨geolod ("Speleothem_" ++ slug ++ "_e" ++ pyStr ent.entityId),
      geolod "collectedFrom", .uri (geolod ("Cave_" ++ slug))⟩ ]

/-- One iteration of the per-entity loop of `build_sisal_rdf` (lines
813-975): emit the speleothem instance, then the d18O block, then the d13C
block, threading the two observation counters. -/
def sisalEntityStep (rw sgw sgp : ℕ) (sg : SgFun) (siteName slug : String)
    (acc : List Triple × ℕ × ℕ) (ent : SEntity) : List Triple × ℕ × ℕ :=
  let p18 := sisalEntityD18O rw sgw sgp sg slug ent.entityId ent.rows acc.2.1
  let p13 := sisalEntityD13C rw sgw sgp sg slug ent.entityId ent.rows acc.2.2
  (acc.1 ++ sisalSpeleothemTriples siteName slug ent ++ p18.1 ++ p13.1,
   p18.2, p13.2)

/-- The per-entity loop of `build_sisal_rdf` (lines 813-975), threading the
two observation counters across entities. -/
def sisalEntitiesSection (rw sgw sgp : ℕ) (sg : SgFun)
    (siteName slug : String) (entities : List SEntity) : List Triple :=
  (entities.foldl (sisalEntityStep rw sgw sgp sg siteName slug) ([], 0, 0)).1

/-- `build_sisal_rdf(df, site_name, site_slug)`: site-level triples followed
by the per-entity observation triples.  This builder never aborts on a
smoothing error: the Savitzky-Golay failure is caught inside each entity
block. -/
def build_sisal_rdf (rw sgw sgp : ℕ) (sg : SgFun) (siteName slug : String)
    (siteId : ℕ) (latlon : Option (ℚ × ℚ)) (entities : List SEntity) :
    List Triple :=
  sisalSiteTriples rw sgw sgp siteName slug siteId latlon ++
    sisalEntitiesSection rw sgw sgp sg siteName slug entities

/-! ### Helper lemmas about string heads/tails of built URIs and literals -/

theorem strHead_append (s t : String) (c : Char) (h : s.data.head? = some c) :
    (s ++ t).data.head? = some c := by
  rw [String.data_append]
  cases hs : s.data with
  | nil => rw [hs] at h; cases h
  | cons a r => rw [hs] at h; simpa using h

theorem strLast_append (s t : String) (c : Char) (h : t.data.getLast? = some c) :
    (s ++ t).data.getLast? = some c := by
  rw [String.data_append]
  have hne : t.data ≠ [] := by intro hnil; rw [hnil] at h; cases h
  rw [List.getLast?_append_of_ne_nil _ hne, h]

theorem wkt_point_head (lon lat : ℚ) :
    (wkt_point lon lat).data.head? = some '<' := by
  rw [wkt_point]
  apply strHead_append
  apply strHead_append
  apply strHead_append
  apply strHead_append
  apply strHead_append
  rfl

theorem wkt_point_last (lon lat : ℚ) :
    (wkt_point lon lat).data.getLast? = some ')' := by
  rw [wkt_point]
  apply strLast_append
  rfl

theorem pyStrip_wkt_point (lon lat : ℚ) :
    pyStrip (wkt_point lon lat) = wkt_point lon lat := by
  apply String.ext
  show pyTrim _ = _
  apply pyTrim_eq_self
  · intro c hc
    rw [wkt_point_head lon lat] at hc
    rw [← Option.some.inj hc]
    decide
  · intro c hc
    rw [wkt_point_last lon lat] at hc
    rw [← Option.some.inj hc]
    decide

theorem ensureCrs_wkt_point (lon lat : ℚ) :
    ensureCrs (wkt_point lon lat) = wkt_point lon lat := by
  have hsw : pyStartsWithLt (pyStrip (wkt_point lon lat)) = true := by
    rw [pyStrip_wkt_point]
    simp [pyStartsWithLt, wkt_point_head lon lat]
  rw [ensureCrs_of_startsWith _ hsw, pyStrip_wkt_point]

/-! ### Claim theorems -/

/-- C3 (counterexample): `_ensure_crs` does not return a CRS-prefixed input
*unchanged* — it returns the whitespace-stripped input, so a CRS-prefixed
string with a leading blank is altered; and double application differs from
single application on the empty string (the encoder appends a trailing
blank to an empty stripped input, which the second pass then strips). -/
theorem ensure_crs_cex :
    (pyStrip " <http://www.opengis.net/def/crs/EPSG/0/4326> POINT(0 0)" =
      "<" ++ CRS_WGS84 ++ "> POINT(0 0)" ∧
     pyStartsWithLt (pyStrip
      " <http://www.opengis.net/def/crs/EPSG/0/4326> POINT(0 0)") = true ∧
     ensureCrs " <http://www.opengis.net/def/crs/EPSG/0/4326> POINT(0 0)" ≠
      " <http://www.opengis.net/def/crs/EPSG/0/4326> POINT(0 0)") ∧
    ensureCrs (ensureCrs "") ≠ ensureCrs "" := by
  refine ⟨⟨by decide, by decide, by decide⟩, by decide⟩

/-- C3 (amended): `_ensure_crs` returns the *stripped* input unchanged
whenever the stripped input already starts with a CRS prefix (so inputs
without surrounding whitespace are returned verbatim and never
double-prefixed); double application equals single application for every
input whose stripped form is non-empty; and `wkt_point` is deterministic
and produces a literal that `_ensure_crs` fixes. -/
theorem ensure_crs_amended :
    (∀ w : String, pyStartsWithLt (pyStrip w) = true → ensureCrs w = pyStrip w) ∧
    (∀ w : String, pyStrip w ≠ "" → ensureCrs (ensureCrs w) = ensureCrs w) ∧
    (∀ lon lat : ℚ, wkt_point lon lat = wkt_point lon lat ∧
      ensureCrs (wkt_point lon lat) = wkt_point lon lat) :=
  ⟨ensureCrs_of_startsWith, ensureCrs_idem,
   fun lon lat => ⟨rfl, ensureCrs_wkt_point lon lat⟩⟩

/-- Witness for `ensure_crs_amended` at concrete inputs. -/
theorem ensure_crs_amended_witness :
    ensureCrs "<http://www.opengis.net/def/crs/EPSG/0/4326> POINT(1 2)" =
      "<http://www.opengis.net/def/crs/EPSG/0/4326> POINT(1 2)" ∧
    ensureCrs (ensureCrs " POINT(3 4)") = ensureCrs " POINT(3 4)" ∧
    ensureCrs (wkt_point 1 2) = wkt_point 1 2 :=
  ⟨(ensure_crs_amended.1
      "<http://www.opengis.net/def/crs/EPSG/0/4326> POINT(1 2)"
      (by decide)).trans (by decide),
   ensure_crs_amended.2.1 " POINT(3 4)" (by decide),
   (ensure_crs_amended.2.2 1 2).2⟩

/-- C4: graph merging is an idempotent, commutative, associative set union:
adding an already-present triple changes neither the triple set nor the
triple count; merging two graphs into an accumulator is order-independent;
and folding any permutation of the per-dataset graphs into the accumulator
yields the same combined triple set. -/
theorem merge_union_properties :
    (∀ (g : RdfGraph) (t : Triple), t ∈ g →
      graphAdd g t = g ∧ (graphAdd g t).card = g.card) ∧
    (∀ (c : RdfGraph) (lA lB : List Triple),
      mergeGraph (mergeGraph c lA) lB = mergeGraph (mergeGraph c lB) lA) ∧
    (∀ (c : RdfGraph) (gs₁ gs₂ : List (List Triple)), gs₁.Perm gs₂ →
      mergeAll c gs₁ = mergeAll c gs₂) := by
  have hmg : ∀ (c : RdfGraph) (l : List Triple),
      mergeGraph c l = c ∪ l.toFinset :=
    fun c l => mergeGraph_eq_union c l.toFinset l rfl
  have hcomm : ∀ (c : RdfGraph) (lA lB : List Triple),
      mergeGraph (mergeGraph c lA) lB = mergeGraph (mergeGraph c lB) lA := by
    intro c lA lB
    rw [hmg, hmg, hmg, hmg, Finset.union_assoc, Finset.union_assoc,
      Finset.union_comm lA.toFinset]
  refine ⟨?_, hcomm, ?_⟩
  · intro g t ht
    have h1 : graphAdd g t = g := by
      rw [graphAdd, Finset.insert_eq_self.2 ht]
    exact ⟨h1, by rw [h1]⟩
  · intro c gs₁ gs₂ hperm
    exact hperm.foldl_eq' (fun lA _ lB _ c => hcomm c lA lB) c

/-- Witness for `merge_union_properties` at concrete inputs. -/
theorem merge_union_properties_witness :
    (graphAdd {⟨geolod "a", rdfNS "type", .uri (geoNS "Feature")⟩}
        ⟨geolod "a", rdfNS "type", .uri (geoNS "Feature")⟩ =
      {⟨geolod "a", rdfNS "type", .uri (geoNS "Feature")⟩}) ∧
    mergeAll ∅ [[⟨geolod "a", rdfNS "type", .uri (geoNS "Feature")⟩],
        [⟨geolod "b", rdfNS "type", .uri (geoNS "Feature")⟩]] =
      mergeAll ∅ [[⟨geolod "b", rdfNS "type", .uri (geoNS "Feature")⟩],
        [⟨geolod "a", rdfNS "type", .uri (geoNS "Feature")⟩]] :=
  ⟨(merge_union_properties.1 _ _ (by decide)).1,
   merge_union_properties.2.2 ∅ _ _ (List.Perm.swap _ _ _)⟩

/-- C8: merging a 3-location graph with a 2-location graph that shares one
location by identifier yields a FeatureCollection with exactly 4 distinct
`rdfs:member` triples — the shared location appears once, never twice.
The two graphs are built with `add_feature_collection` over Feature-typed
locations; the merge folds the second graph's triples into the first. -/
theorem merged_feature_collection_four_members :
    ([⟨geolod "Cave_site_0003", rdfNS "type", .uri (geoNS "Feature")⟩,
      ⟨geolod "Cave_site_0004", rdfNS "type", .uri (geoNS "Feature")⟩,
      ⟨geolod "SISAL_Cave_Collection", rdfNS "type",
        .uri (geoNS "FeatureCollection")⟩,
      ⟨geolod "SISAL_Cave_Collection", rdfsNS "label",
        .text "SISAL Cave Sites Collection" "en"⟩,
      ⟨geolod "SISAL_Cave_Collection", rdfsNS "member",
        .uri (geolod "Cave_site_0003")⟩,
      ⟨geolod "SISAL_Cave_Collection", rdfsNS "member",
        .uri (geolod "Cave_site_0004")⟩] : List Triple).toFinset =
      add_feature_collection
        (graphAddAll ∅
          [⟨geolod "Cave_site_0003", rdfNS "type", .uri (geoNS "Feature")⟩,
           ⟨geolod "Cave_site_0004", rdfNS "type", .uri (geoNS "Feature")⟩])
        (geolod "SISAL_Cave_Collection") "SISAL Cave Sites Collection"
        [geolod "Cave_site_0003", geolod "Cave_site_0004"] ∧
    ((mergeGraph
        (add_feature_collection
          (graphAddAll ∅
            [⟨geolod "Cave_site_0001", rdfNS "type", .uri (geoNS "Feature")⟩,
             ⟨geolod "Cave_site_0002", rdfNS "type", .uri (geoNS "Feature")⟩,
             ⟨geolod "Cave_site_0003", rdfNS "type", .uri (geoNS "Feature")⟩])
          (geolod "SISAL_Cave_Collection") "SISAL Cave Sites Collection"
          [geolod "Cave_site_0001", geolod "Cave_site_0002",
           geolod "Cave_site_0003"])
        [⟨geolod "Cave_site_0003", rdfNS "type", .uri (geoNS "Feature")⟩,
         ⟨geolod "Cave_site_0004", rdfNS "type", .uri (geoNS "Feature")⟩,
         ⟨geolod "SISAL_Cave_Collection", rdfNS "type",
           .uri (geoNS "FeatureCollection")⟩,
         ⟨geolod "SISAL_Cave_Collection", rdfsNS "label",
           .text "SISAL Cave Sites Collection" "en"⟩,
         ⟨geolod "SISAL_Cave_Collection", rdfsNS "member",
           .uri (geolod "Cave_site_0003")⟩,
         ⟨geolod "SISAL_Cave_Collection", rdfsNS "member",
           .uri (geolod "Cave_site_0004")⟩]).filter
      (fun t => t.subj = geolod "SISAL_Cave_Collection" ∧
        t.pred = rdfsNS "member")).card = 4 := by
  constructor
  · decide
  · decide

/-- C10: the rolling-median branch is total: with a centered window and
`min_periods=1`, for every window size `w ≥ 1` and non-empty series the
rolling median yields exactly one slot per input value, no slot is NaN,
and the series equals the always-defined median series used by the EPICA
builder. -/
theorem rolling_median_total (w : ℕ) (xs : List ℚ)
    (hw : 1 ≤ w) (hxs : xs ≠ []) :
    (rollingMedian w 1 xs).length = xs.length ∧
    (∀ o ∈ rollingMedian w 1 xs, o.isSome) ∧
    rollingMedian w 1 xs = (rollingMedianT w xs).map some := by
  refine ⟨by simp [rollingMedian], ?_, rollingMedian_one_eq w xs hw⟩
  intro o ho
  rw [rollingMedian_one_eq w xs hw] at ho
  rcases List.mem_map.1 ho with ⟨q, _, rfl⟩
  rfl

/-- Witness for `rolling_median_total`: window 11 on a 5-value series (the
window exceeds the data; every slot is still defined). -/
theorem rolling_median_total_witness :
    (rollingMedian 11 1 [100, 110, 105, 120, 115]).length = 5 ∧
    (∀ o ∈ rollingMedian 11 1 [(100 : ℚ), 110, 105, 120, 115], o.isSome) := by
  have h := rolling_median_total 11 [100, 110, 105, 120, 115]
    (by decide) (by decide)
  exact ⟨h.1, h.2.1⟩

/-! ### Smoothing-method reference discipline (helper lemmas) -/

/-- The property that every smoothing-method link in a triple targets the
single parameter-keyed method node. -/
def MethodRefs (medNode sgNode : String) (t : Triple) : Prop :=
  (t.pred = geolod "smoothingMethod_median" → t.obj = .uri medNode) ∧
  (t.pred = geolod "smoothingMethod_savgol" → t.obj = .uri sgNode)

/-- Boolean scan: no triple of the list uses a smoothing-method predicate. -/
def predNotSmoothing (ts : List Triple) : Bool :=
  ts.all (fun t => !(t.pred == geolod "smoothingMethod_median") &&
                   !(t.pred == geolod "smoothingMethod_savgol"))

theorem predNotSmoothing_spec {ts : List Triple}
    (h : predNotSmoothing ts = true) (medNode sgNode : String) :
    ∀ t ∈ ts, MethodRefs medNode sgNode t := by
  intro t ht
  have h2 := List.all_eq_true.1 h t ht
  simp only [Bool.and_eq_true, Bool.not_eq_true', beq_eq_false_iff_ne] at h2
  exact ⟨fun hp => absurd hp h2.1, fun hp => absurd hp h2.2⟩

theorem epicaStatic_no_method (today : String) (rw sgw sgp : ℕ) :
    predNotSmoothing (epicaStaticTriples today rw sgw sgp) = true := by rfl

theorem sisalSite_no_method (rw sgw sgp : ℕ) (siteName slug : String)
    (siteId : ℕ) (latlon : Option (ℚ × ℚ)) :
    predNotSmoothing (sisalSiteTriples rw sgw sgp siteName slug siteId latlon)
      = true := by
  rcases latlon with _ | ⟨lat, lon⟩ <;> rfl

theorem sisalSpeleothem_no_method (siteName slug : String) (ent : SEntity) :
    predNotSmoothing (sisalSpeleothemTriples siteName slug ent) = true := by
  rfl

theorem epicaCH4Obs_method_refs (rw sgw sgp i : ℕ) (v a d m s : ℚ) :
    ∀ t ∈ epicaCH4ObsTriples rw sgw sgp i v a d m s,
      MethodRefs (epicaMedianNode rw) (epicaSavgolNode sgw sgp) t := by
  intro t ht
  simp only [epicaCH4ObsTriples, List.mem_cons, List.not_mem_nil, or_false]
    at ht
  rcases ht with rfl|rfl|rfl|rfl|rfl|rfl|rfl|rfl|rfl|rfl|rfl|rfl|rfl|rfl|rfl|rfl|rfl|rfl|rfl <;>
    (constructor <;> intro hp <;>
      first
        | rfl
        | simp [geolod, rdfNS, rdfsNS, sosaNS, crmNS, crmsciNS, qudtNS,
            unitNS, provNS, dcatNS, dctNS, xsdNS, geoNS, sfNS] at hp)

theorem epicaD18OObs_method_refs (rw sgw sgp i : ℕ) (v a d m s : ℚ) :
    ∀ t ∈ epicaD18OObsTriples rw sgw sgp i v a d m s,
      MethodRefs (epicaMedianNode rw) (epicaSavgolNode sgw sgp) t := by
  intro t ht
  simp only [epicaD18OObsTriples, List.mem_cons, List.not_mem_nil, or_false]
    at ht
  rcases ht with rfl|rfl|rfl|rfl|rfl|rfl|rfl|rfl|rfl|rfl|rfl|rfl|rfl|rfl|rfl|rfl|rfl|rfl|rfl <;>
    (constructor <;> intro hp <;>
      first
        | rfl
        | simp [geolod, rdfNS, rdfsNS, sosaNS, crmNS, crmsciNS, qudtNS,
            unitNS, provNS, dcatNS, dctNS, xsdNS, geoNS, sfNS] at hp)

theorem sisalD18OObs_method_refs (rw sgw sgp : ℕ) (slug : String) (e k : ℕ)
    (v a : ℚ) (dep : Option ℚ) (m s : Option ℚ) :
    ∀ t ∈ sisalD18OObsTriples rw sgw sgp slug e k v a dep m s,
      MethodRefs (sisalMedianNode rw) (sisalSavgolNode sgw sgp) t := by
  intro t ht
  rcases dep with _ | dv <;> rcases m with _ | mv <;> rcases s with _ | sv <;>
    simp only [sisalD18OObsTriples, List.cons_append, List.nil_append,
      List.singleton_append, List.mem_cons, List.not_mem_nil, or_false]
      at ht <;>
    (first
      | (rcases ht with rfl|rfl|rfl|rfl|rfl|rfl|rfl|rfl|rfl|rfl|rfl|rfl|rfl)
      | (rcases ht with rfl|rfl|rfl|rfl|rfl|rfl|rfl|rfl|rfl|rfl|rfl|rfl)
      | (rcases ht with rfl|rfl|rfl|rfl|rfl|rfl|rfl|rfl|rfl|rfl|rfl)
      | (rcases ht with rfl|rfl|rfl|rfl|rfl|rfl|rfl|rfl|rfl|rfl)
      | (rcases ht with rfl|rfl|rfl|rfl|rfl|rfl|rfl|rfl|rfl)
      | (rcases ht with rfl|rfl|rfl|rfl|rfl|rfl|rfl|rfl)) <;>
    (constructor <;> intro hp <;>
      first
        | rfl
        | simp [geolod, rdfNS, rdfsNS, sosaNS, crmNS, crmsciNS, qudtNS,
            unitNS, provNS, dcatNS, dctNS, xsdNS, geoNS, sfNS] at hp)

theorem sisalD13CObs_method_refs (rw sgw sgp : ℕ) (slug : String) (e k : ℕ)
    (v a : ℚ) (dep : Option ℚ) (m s : Option ℚ) :
    ∀ t ∈ sisalD13CObsTriples rw sgw sgp slug e k v a dep m s,
      MethodRefs (sisalMedianNode rw) (sisalSavgolNode sgw sgp) t := by
  intro t ht
  rcases dep with _ | dv <;> rcases m with _ | mv <;> rcases s with _ | sv <;>
    simp only [sisalD13CObsTriples, List.cons_append, List.nil_append,
      List.singleton_append, List.mem_cons, List.not_mem_nil, or_false]
      at ht <;>
    (first
      | (rcases ht with rfl|rfl|rfl|rfl|rfl|rfl|rfl|rfl|rfl|rfl|rfl|rfl|rfl)
      | (rcases ht with rfl|rfl|rfl|rfl|rfl|rfl|rfl|rfl|rfl|rfl|rfl|rfl)
      | (rcases ht with rfl|rfl|rfl|rfl|rfl|rfl|rfl|rfl|rfl|rfl|rfl)
      | (rcases ht with rfl|rfl|rfl|rfl|rfl|rfl|rfl|rfl|rfl|rfl)
      | (rcases ht with rfl|rfl|rfl|rfl|rfl|rfl|rfl|rfl|rfl)
      | (rcases ht with rfl|rfl|rfl|rfl|rfl|rfl|rfl|rfl)) <;>
    (constructor <;> intro hp <;>
      first
        | rfl
        | simp [geolod, rdfNS, rdfsNS, sosaNS, crmNS, crmsciNS, qudtNS,
            unitNS, provNS, dcatNS, dctNS, xsdNS, geoNS, sfNS] at hp)

theorem buildEpicaCH4Section_method_refs (rw sgw sgp : ℕ) (sg : SgFun)
    (rows : List ERow) (ts : List Triple)
    (h : buildEpicaCH4Section rw sgw sgp sg rows = .ok ts) :
    ∀ t ∈ ts, MethodRefs (epicaMedianNode rw) (epicaSavgolNode sgw sgp) t := by
  simp only [buildEpicaCH4Section] at h
  split at h
  · cases h
  · injection h with h
    subst h
    intro t ht
    rcases List.mem_flatMap.1 ht with ⟨x, _, htx⟩
    obtain ⟨i, ⟨⟨v, a, d⟩, mz, sz⟩⟩ := x
    exact epicaCH4Obs_method_refs rw sgw sgp i v a d mz sz t htx

theorem buildEpicaD18OSection_method_refs (rw sgw sgp : ℕ) (sg : SgFun)
    (rows : List ERow) (ts : List Triple)
    (h : buildEpicaD18OSection rw sgw sgp sg rows = .ok ts) :
    ∀ t ∈ ts, MethodRefs (epicaMedianNode rw) (epicaSavgolNode sgw sgp) t := by
  simp only [buildEpicaD18OSection] at h
  split at h
  · cases h
  · injection h with h
    subst h
    intro t ht
    rcases List.mem_flatMap.1 ht with ⟨x, _, htx⟩
    obtain ⟨i, ⟨⟨v, a, d⟩, mz, sz⟩⟩ := x
    exact epicaD18OObs_method_refs rw sgw sgp i v a d mz sz t htx

theorem sisalEntityD18O_method_refs (rw sgw sgp : ℕ) (sg : SgFun)
    (slug : String) (e : ℕ) (rows : List SRow) (k0 : ℕ) :
    ∀ t ∈ (sisalEntityD18O rw sgw sgp sg slug e rows k0).1,
      MethodRefs (sisalMedianNode rw) (sisalSavgolNode sgw sgp) t := by
  intro t ht
  simp only [sisalEntityD18O] at ht
  split at ht
  · simp at ht
  · rcases List.mem_flatMap.1 ht with ⟨x, _, htx⟩
    obtain ⟨i, ⟨⟨v, a, dep⟩, mz, sz⟩⟩ := x
    exact sisalD18OObs_method_refs rw sgw sgp slug e (k0 + i) v a dep mz sz t htx

theorem sisalEntityD13C_method_refs (rw sgw sgp : ℕ) (sg : SgFun)
    (slug : String) (e : ℕ) (rows : List SRow) (k0 : ℕ) :
    ∀ t ∈ (sisalEntityD13C rw sgw sgp sg slug e rows k0).1,
      MethodRefs (sisalMedianNode rw) (sisalSavgolNode sgw sgp) t := by
  intro t ht
  simp only [sisalEntityD13C] at ht
  split at ht
  · simp at ht
  · rcases List.mem_flatMap.1 ht with ⟨x, _, htx⟩
    obtain ⟨i, ⟨⟨v, a, dep⟩, mz, sz⟩⟩ := x
    exact sisalD13CObs_method_refs rw sgw sgp slug e (k0 + i) v a dep mz sz t htx

theorem sisalEntitiesFold_method_refs (rw sgw sgp : ℕ) (sg : SgFun)
    (siteName slug : String) (entities : List SEntity) :
    ∀ acc : List Triple × ℕ × ℕ,
      (∀ t ∈ acc.1, MethodRefs (sisalMedianNode rw) (sisalSavgolNode sgw sgp) t) →
      ∀ t ∈ (entities.foldl (sisalEntityStep rw sgw sgp sg siteName slug) acc).1,
        MethodRefs (sisalMedianNode rw) (sisalSavgolNode sgw sgp) t := by
  induction entities with
  | nil => intro acc hacc; simpa using hacc
  | cons ent rest ih =>
    intro acc hacc
    rw [List.foldl_cons]
    apply ih
    intro t ht
    simp only [sisalEntityStep, List.append_assoc, List.mem_append] at ht
    rcases ht with h | h | h | h
    · exact hacc t h
    · exact predNotSmoothing_spec (sisalSpeleothem_no_method siteName slug ent)
        _ _ t h
    · exact sisalEntityD18O_method_refs rw sgw sgp sg slug ent.entityId
        ent.rows acc.2.1 t h
    · exact sisalEntityD13C_method_refs rw sgw sgp sg slug ent.entityId
        ent.rows acc.2.2 t h

/-- C2: singleton discipline for smoothing methods.  The rolling-median node
URI is determined solely by the window and the Savitzky-Golay node URI
solely by (window, polyorder), with EPICA and SISAL minting identical URIs
for identical parameters; and in every graph either builder produces, every
smoothing-method link points at that single parameter-keyed node, so no two
URI-distinct method nodes with identical parameters are ever referenced. -/
theorem smoothing_method_singleton :
    (∀ rw : ℕ, epicaMedianNode rw = sisalMedianNode rw) ∧
    (∀ sgw sgp : ℕ, epicaSavgolNode sgw sgp = sisalSavgolNode sgw sgp) ∧
    (∀ (today : String) (rw sgw sgp : ℕ) (sg : SgFun)
       (ch4Rows d18oRows : List ERow) (ts : List Triple),
      build_epica_rdf today rw sgw sgp sg ch4Rows d18oRows = .ok ts →
      ∀ t ∈ ts, MethodRefs (epicaMedianNode rw) (epicaSavgolNode sgw sgp) t) ∧
    (∀ (rw sgw sgp : ℕ) (sg : SgFun) (siteName slug : String) (siteId : ℕ)
       (latlon : Option (ℚ × ℚ)) (entities : List SEntity),
      ∀ t ∈ build_sisal_rdf rw sgw sgp sg siteName slug siteId latlon entities,
        MethodRefs (sisalMedianNode rw) (sisalSavgolNode sgw sgp) t) := by
  refine ⟨fun _ => rfl, fun _ _ => rfl, ?_, ?_⟩
  · intro today rw sgw sgp sg ch4Rows d18oRows ts h
    rw [build_epica_rdf] at h
    split at h
    · cases h
    · rename_i ts1 h1
      split at h
      · cases h
      · rename_i ts2 h2
        injection h with h
        subst h
        intro t ht
        rcases List.mem_append.1 ht with h3 | h3
        · rcases List.mem_append.1 h3 with h4 | h4
          · exact predNotSmoothing_spec (epicaStatic_no_method today rw sgw sgp)
              _ _ t h4
          · exact buildEpicaCH4Section_method_refs rw sgw sgp sg ch4Rows ts1 h1
              t h4
        · exact buildEpicaD18OSection_method_refs rw sgw sgp sg d18oRows ts2 h2
            t h3
  · intro rw sgw sgp sg siteName slug siteId latlon entities t ht
    rcases List.mem_append.1 ht with h | h
    · exact predNotSmoothing_spec
        (sisalSite_no_method rw sgw sgp siteName slug siteId latlon) _ _ t h
    · exact sisalEntitiesFold_method_refs rw sgw sgp sg siteName slug entities
        ([], 0, 0) (by simp) t h

/-- Witness for `smoothing_method_singleton`: a one-row EPICA build and a
one-entity SISAL build with concrete parameters. -/
theorem smoothing_method_singleton_witness :
    (∃ ts, build_epica_rdf "2026-02-03" 3 1 0 sgModel
        [⟨some 1, some 2, some 3⟩] [⟨some 1, some 2, some 3⟩] = .ok ts ∧
      ∀ t ∈ ts, MethodRefs (epicaMedianNode 3) (epicaSavgolNode 1 0) t) ∧
    (∀ t ∈ build_sisal_rdf 3 1 0 sgModel "Botuverá" "144_botuvera" 144
        (some (5, 6)) [⟨1, "e1", [⟨some 1, none, some 2, none⟩]⟩],
      MethodRefs (sisalMedianNode 3) (sisalSavgolNode 1 0) t) := by
  constructor
  · refine ⟨_, rfl, ?_⟩
    exact smoothing_method_singleton.2.2.1 "2026-02-03" 3 1 0 sgModel
      [⟨some 1, some 2, some 3⟩] [⟨some 1, some 2, some 3⟩] _ rfl
  · exact smoothing_method_singleton.2.2.2 3 1 0 sgModel "Botuverá"
      "144_botuvera" 144 (some (5, 6)) [⟨1, "e1", [⟨some 1, none, some 2, none⟩]⟩]

/-! ### Identifier minting: injectivity and disjointness -/

theorem geolod_injective : Function.Injective geolod := by
  intro a b h
  have hd := congrArg String.data h
  rw [geolod, geolod, String.data_append, String.data_append] at hd
  exact String.ext (List.append_cancel_left hd)

theorem str_append_cancel (p : String) {a b : String} (h : p ++ a = p ++ b) :
    a = b := by
  have hd := congrArg String.data h
  rw [String.data_append, String.data_append] at hd
  exact String.ext (List.append_cancel_left hd)

theorem geolod_append_data (a b : String) :
    (geolod (a ++ b)).data = (geolod a).data ++ b.data := by
  simp [geolod, String.data_append, List.append_assoc]

/-- A trailing underscore-separated zero-padded counter determines itself:
`x ++ "_" ++ pad w k₁ = y ++ "_" ++ pad w k₂` forces `k₁ = k₂`. -/
theorem final_pad_inj (x y : String) (w k₁ k₂ : ℕ)
    (h : x ++ "_" ++ pad w k₁ = x ++ "_" ++ pad w k₂ ∨
         x ++ "_" ++ pad w k₁ = y ++ "_" ++ pad w k₂) : k₁ = k₂ := by
  have h2 : x ++ "_" ++ pad w k₁ = y ++ "_" ++ pad w k₂ ∨
      x ++ "_" ++ pad w k₁ = x ++ "_" ++ pad w k₂ := h.symm
  rcases h with h | h <;>
  · have hd := congrArg String.data h
    rw [String.data_append, String.data_append, String.data_append,
      String.data_append, List.append_assoc, List.append_assoc] at hd
    have e1 : ("_" : String).data ++ (pad w k₁).data = '_' :: (pad w k₁).data :=
      rfl
    have e2 : ("_" : String).data ++ (pad w k₂).data = '_' :: (pad w k₂).data :=
      rfl
    rw [e1, e2] at hd
    apply pad_injective w
    apply String.ext
    exact underscore_suffix (zfill_digits w k₁) (zfill_digits w k₂) hd

theorem epicaCH4Id_injective : Function.Injective epicaCH4Id := by
  intro i j h
  exact pad_injective 4 (str_append_cancel "Obs_CH4_" (geolod_injective h))

theorem epicaD18OId_injective : Function.Injective epicaD18OId := by
  intro i j h
  exact pad_injective 4 (str_append_cancel "Obs_d18O_" (geolod_injective h))

theorem epicaCH4Id_ne_epicaD18OId (i j : ℕ) : epicaCH4Id i ≠ epicaD18OId j := by
  intro h
  have hd := congrArg String.data h
  rw [epicaCH4Id, epicaD18OId, geolod_append_data, geolod_append_data] at hd
  exact append_ne_of_index 28 (by decide) (by decide) (by decide) hd

theorem sisalD18OId_counter_inj (slug : String) (e₁ k₁ e₂ k₂ : ℕ)
    (h : sisalD18OId slug e₁ k₁ = sisalD18OId slug e₂ k₂) : k₁ = k₂ := by
  have h2 := geolod_injective h
  exact final_pad_inj ("Obs_d18O_" ++ slug ++ "_e" ++ pyStr e₁)
    ("Obs_d18O_" ++ slug ++ "_e" ++ pyStr e₂) 5 k₁ k₂ (Or.inr h2)

theorem sisalD13CId_counter_inj (slug : String) (e₁ k₁ e₂ k₂ : ℕ)
    (h : sisalD13CId slug e₁ k₁ = sisalD13CId slug e₂ k₂) : k₁ = k₂ := by
  have h2 := geolod_injective h
  exact final_pad_inj ("Obs_d13C_" ++ slug ++ "_e" ++ pyStr e₁)
    ("Obs_d13C_" ++ slug ++ "_e" ++ pyStr e₂) 5 k₁ k₂ (Or.inr h2)

theorem sisalD18OId_data (slug : String) (e k : ℕ) :
    (sisalD18OId slug e k).data = (geolod "Obs_d18O_").data ++
      (slug.data ++ ("_e".data ++ ((pyStr e).data ++
        ("_".data ++ (pad 5 k).data)))) := by
  simp [sisalD18OId, geolod, String.data_append, List.append_assoc]

theorem sisalD13CId_data (slug : String) (e k : ℕ) :
    (sisalD13CId slug e k).data = (geolod "Obs_d13C_").data ++
      (slug.data ++ ("_e".data ++ ((pyStr e).data ++
        ("_".data ++ (pad 5 k).data)))) := by
  simp [sisalD13CId, geolod, String.data_append, List.append_assoc]

theorem sisalD18OId_ne_sisalD13CId (slug slug' : String) (e k e' k' : ℕ) :
    sisalD18OId slug e k ≠ sisalD13CId slug' e' k' := by
  intro h
  have hd := congrArg String.data h
  rw [sisalD18OId_data, sisalD13CId_data] at hd
  exact append_ne_of_index 30 (by decide) (by decide) (by decide) hd

/-- The CH4 then d18O observation URIs one EPICA build mints for `n` valid
CH4 rows and `m` valid d18O rows (`build_epica_rdf` lines 896-897, 972-973). -/
def epicaObsIds (n m : ℕ) : List String :=
  (List.range n).map epicaCH4Id ++ (List.range m).map epicaD18OId

/-- The d18O observation URIs one SISAL site build mints, in emission order:
the running counter `obs_d18o_total` is the global index of the valid row,
and each URI also carries the owning entity id
(`build_sisal_rdf` line 851). -/
def sisalD18OIds (slug : String) (entities : List SEntity) : List String :=
  (entities.flatMap (fun ent =>
    (sisalValidD18O ent.rows).map (fun _ => ent.entityId))).enum.map
    (fun ik => sisalD18OId slug ik.2 ik.1)

/-- The d13C analogue (`build_sisal_rdf` line 923). -/
def sisalD13CIds (slug : String) (entities : List SEntity) : List String :=
  (entities.flatMap (fun ent =>
    (sisalValidD13C ent.rows).map (fun _ => ent.entityId))).enum.map
    (fun ik => sisalD13CId slug ik.2 ik.1)

/-- All observation URIs one SISAL site build mints. -/
def sisalObsIds (slug : String) (entities : List SEntity) : List String :=
  sisalD18OIds slug entities ++ sisalD13CIds slug entities

theorem enum_map_nodup {α : Type} (f : ℕ × α → String) (l : List α)
    (hf : ∀ x y : ℕ × α, f x = f y → x.1 = y.1) : (l.enum.map f).Nodup := by
  have henum : l.enum.Nodup := by
    have : (l.enum.map Prod.fst).Nodup := by
      rw [List.enum_map_fst]
      exact List.nodup_range l.length
    exact List.Nodup.of_map _ this
  apply List.Nodup.map_on _ henum
  intro x hx y hy hxy
  have h1 := hf x y hxy
  have hx2 := List.mem_enum_iff_getElem?.1 hx
  have hy2 := List.mem_enum_iff_getElem?.1 hy
  rw [← h1] at hy2
  rw [hx2] at hy2
  exact Prod.ext h1 (Option.some.inj hy2)

/-- C1: minted Observation identifiers are pairwise distinct within one
build.  EPICA: the `Obs_CH4_{i:04d}` and `Obs_d18O_{i:04d}` URIs over any
row counts have no duplicates (zero-padded sequence numbers are injective
and the measurement-type prefixes differ).  SISAL: the d18O and d13C URIs
across all entities of a site have no duplicates (the site-wide running
counter is strictly increasing and right-cancellable behind its underscore,
and the type prefixes differ).  Determinism across re-runs is immediate in
this embedding: each identifier list is a pure function of the input table
alone, so the same input always mints the same identifiers. -/
theorem observation_ids_distinct :
    (∀ n m : ℕ, (epicaObsIds n m).Nodup) ∧
    (∀ (slug : String) (entities : List SEntity),
      (sisalObsIds slug entities).Nodup) := by
  constructor
  · intro n m
    apply List.Nodup.append
    · exact (List.nodup_range n).map epicaCH4Id_injective
    · exact (List.nodup_range m).map epicaD18OId_injective
    · intro a ha hb
      rcases List.mem_map.1 ha with ⟨i, _, rfl⟩
      rcases List.mem_map.1 hb with ⟨j, _, hj⟩
      exact epicaCH4Id_ne_epicaD18OId i j hj.symm
  · intro slug entities
    apply List.Nodup.append
    · exact enum_map_nodup _ _
        (fun x y h => sisalD18OId_counter_inj slug x.2 x.1 y.2 y.1 h)
    · exact enum_map_nodup _ _
        (fun x y h => sisalD13CId_counter_inj slug x.2 x.1 y.2 y.1 h)
    · intro a ha hb
      rcases List.mem_map.1 ha with ⟨x, _, rfl⟩
      rcases List.mem_map.1 hb with ⟨y, _, hy⟩
      exact sisalD18OId_ne_sisalD13CId slug slug x.2 x.1 y.2 y.1 hy.symm

/-! ### Generic scans over the SISAL build -/

/-- Boolean scan: no triple of the list uses predicate `p`. -/
def noPred (p : String) (ts : List Triple) : Bool :=
  ts.all (fun t => !(t.pred == p))

theorem noPred_spec {p : String} {ts : List Triple}
    (h : noPred p ts = true) : ∀ t ∈ ts, t.pred ≠ p := by
  intro t ht
  have h2 := List.all_eq_true.1 h t ht
  simpa using h2

theorem sisalEntityD18O_forall (P : Triple → Prop) (rw sgw sgp : ℕ)
    (sg : SgFun) (slug : String) (e : ℕ) (rows : List SRow) (k0 : ℕ)
    (hobs : ∀ (i : ℕ) (v a : ℚ) (dep m s : Option ℚ) (t : Triple),
      t ∈ sisalD18OObsTriples rw sgw sgp slug e (k0 + i) v a dep m s → P t) :
    ∀ t ∈ (sisalEntityD18O rw sgw sgp sg slug e rows k0).1, P t := by
  intro t ht
  simp only [sisalEntityD18O] at ht
  split at ht
  · simp at ht
  · rcases List.mem_flatMap.1 ht with ⟨x, _, htx⟩
    obtain ⟨i, ⟨⟨v, a, dep⟩, mz, sz⟩⟩ := x
    exact hobs i v a dep mz sz t htx

theorem sisalEntityD13C_forall (P : Triple → Prop) (rw sgw sgp : ℕ)
    (sg : SgFun) (slug : String) (e : ℕ) (rows : List SRow) (k0 : ℕ)
    (hobs : ∀ (i : ℕ) (v a : ℚ) (dep m s : Option ℚ) (t : Triple),
      t ∈ sisalD13CObsTriples rw sgw sgp slug e (k0 + i) v a dep m s → P t) :
    ∀ t ∈ (sisalEntityD13C rw sgw sgp sg slug e rows k0).1, P t := by
  intro t ht
  simp only [sisalEntityD13C] at ht
  split at ht
  · simp at ht
  · rcases List.mem_flatMap.1 ht with ⟨x, _, htx⟩
    obtain ⟨i, ⟨⟨v, a, dep⟩, mz, sz⟩⟩ := x
    exact hobs i v a dep mz sz t htx

theorem sisalEntitiesFold_forall (P : Triple → Prop) (rw sgw sgp : ℕ)
    (sg : SgFun) (siteName slug : String)
    (hspel : ∀ (ent : SEntity), ∀ t ∈ sisalSpeleothemTriples siteName slug ent,
      P t)
    (h18 : ∀ (e : ℕ) (rows : List SRow) (k0 : ℕ),
      ∀ t ∈ (sisalEntityD18O rw sgw sgp sg slug e rows k0).1, P t)
    (h13 : ∀ (e : ℕ) (rows : List SRow) (k0 : ℕ),
      ∀ t ∈ (sisalEntityD13C rw sgw sgp sg slug e rows k0).1, P t) :
    ∀ (entities : List SEntity) (acc : List Triple × ℕ × ℕ),
      (∀ t ∈ acc.1, P t) →
      ∀ t ∈ (entities.foldl (sisalEntityStep rw sgw sgp sg siteName slug) acc).1,
        P t := by
  intro entities
  induction entities with
  | nil => intro acc hacc; simpa using hacc
  | cons ent rest ih =>
    intro acc hacc
    rw [List.foldl_cons]
    apply ih
    intro t ht
    simp only [sisalEntityStep, List.append_assoc, List.mem_append] at ht
    rcases ht with h | h | h | h
    · exact hacc t h
    · exact hspel ent t h
    · exact h18 ent.entityId ent.rows acc.2.1 t h
    · exact h13 ent.entityId ent.rows acc.2.2 t h

theorem sisalD18OObs_no_asWKT (rw sgw sgp : ℕ) (slug : String) (e k : ℕ)
    (v a : ℚ) (dep m s : Option ℚ) :
    ∀ t ∈ sisalD18OObsTriples rw sgw sgp slug e k v a dep m s,
      t.pred ≠ geoNS "asWKT" := by
  rcases dep with _ | dv <;> rcases m with _ | mv <;> rcases s with _ | sv <;>
    exact noPred_spec (by rfl)

theorem sisalD13CObs_no_asWKT (rw sgw sgp : ℕ) (slug : String) (e k : ℕ)
    (v a : ℚ) (dep m s : Option ℚ) :
    ∀ t ∈ sisalD13CObsTriples rw sgw sgp slug e k v a dep m s,
      t.pred ≠ geoNS "asWKT" := by
  rcases dep with _ | dv <;> rcases m with _ | mv <;> rcases s with _ | sv <;>
    exact noPred_spec (by rfl)

/-- C5 (counterexample): the EPICA site geometry literal emitted by
`build_epica_rdf` is the bare `POINT(123.35 -75.1)` — it carries no CRS
prefix (it does not even start with `<`) and its coordinates are not at
6-decimal precision. -/
theorem epica_geometry_cex :
    (⟨geolod "EpicaDomeC_Geometry", geoNS "asWKT",
      .typed "POINT(123.35 -75.1)" (geoNS "wktLiteral")⟩ : Triple) ∈
      epicaStaticTriples "2026-02-03" 11 11 2 ∧
    pyStartsWithLt "POINT(123.35 -75.1)" = false ∧
    "POINT(123.35 -75.1)" ≠ wkt_point (2467/20) (-751/10) :=
  of_decide_eq_true (by with_unfolding_all rfl)

/-- C5 (amended): every cave geometry emitted by the SISAL per-site builder
is the CRS-tagged point literal `"<EPSG:4326 CRS> POINT(lon lat)"` with
6-decimal coordinates (exactly `wkt_point lon lat`), emitted only when the
site has coordinates; the EPICA site geometry, by contrast, is always the
bare literal `POINT(123.35 -75.1)` without CRS prefix or fixed precision. -/
theorem geometry_literals_amended :
    (∀ (rw sgw sgp : ℕ) (sg : SgFun) (siteName slug : String) (siteId : ℕ)
       (latlon : Option (ℚ × ℚ)) (entities : List SEntity) (t : Triple),
      t ∈ build_sisal_rdf rw sgw sgp sg siteName slug siteId latlon entities →
      t.pred = geoNS "asWKT" →
      ∃ lat lon, latlon = some (lat, lon) ∧
        t = ⟨geolod ("Cave_" ++ slug ++ "_Geometry"), geoNS "asWKT",
             .typed (wkt_point lon lat) (geoNS "wktLiteral")⟩) ∧
    (∀ (today : String) (rw sgw sgp : ℕ),
      (⟨geolod "EpicaDomeC_Geometry", geoNS "asWKT",
        .typed "POINT(123.35 -75.1)" (geoNS "wktLiteral")⟩ : Triple) ∈
        epicaStaticTriples today rw sgw sgp) := by
  constructor
  · intro rw sgw sgp sg siteName slug siteId latlon entities t ht hp
    rcases List.mem_append.1 ht with h | h
    · revert hp
      rcases latlon with _ | ⟨lat, lon⟩
      · exact fun hp => absurd hp (noPred_spec (by rfl) t h)
      · simp only [sisalSiteTriples, List.cons_append, List.nil_append,
          List.mem_cons, List.not_mem_nil, or_false] at h
        rcases h with rfl|rfl|rfl|rfl|rfl|rfl|rfl|rfl|rfl|rfl|rfl|rfl|rfl|rfl|rfl|rfl|rfl|rfl|rfl|rfl|rfl|rfl <;>
          intro hp <;>
          first
            | exact ⟨lat, lon, rfl, rfl⟩
            | simp [geolod, rdfNS, rdfsNS, sosaNS, crmNS, crmsciNS, qudtNS,
                unitNS, provNS, dcatNS, dctNS, xsdNS, geoNS, sfNS] at hp
    · exfalso
      apply absurd hp
      revert h
      exact fun h => sisalEntitiesFold_forall (fun t => t.pred ≠ geoNS "asWKT")
        rw sgw sgp sg siteName slug
        (fun ent => noPred_spec (by rfl))
        (fun e rows k0 => sisalEntityD18O_forall _ rw sgw sgp sg slug e rows k0
          (fun i v a dep m s => sisalD18OObs_no_asWKT rw sgw sgp slug e (k0+i)
            v a dep m s))
        (fun e rows k0 => sisalEntityD13C_forall _ rw sgw sgp sg slug e rows k0
          (fun i v a dep m s => sisalD13CObs_no_asWKT rw sgw sgp slug e (k0+i)
            v a dep m s))
        entities ([], 0, 0) (by simp) t h
  · intro today rw sgw sgp
    simp [epicaStaticTriples, epicaStaticPart1, epicaStaticPart2,
      epicaStaticPart3, epicaStaticPart4, epicaStaticPart5, epicaStaticPart6]

/-- Witness for `geometry_literals_amended` at a concrete SISAL build. -/
theorem geometry_literals_amended_witness :
    ∃ lat lon, (some ((5 : ℚ), (6 : ℚ)) : Option (ℚ × ℚ)) = some (lat, lon) ∧
      (⟨geolod ("Cave_" ++ "144_botuvera" ++ "_Geometry"), geoNS "asWKT",
        .typed (wkt_point 6 5) (geoNS "wktLiteral")⟩ : Triple) =
      ⟨geolod ("Cave_" ++ "144_botuvera" ++ "_Geometry"), geoNS "asWKT",
        .typed (wkt_point lon lat) (geoNS "wktLiteral")⟩ :=
  geometry_literals_amended.1 3 1 0 sgModel "Botuverá" "144_botuvera" 144
    (some (5, 6)) [] _
    (of_decide_eq_true (by with_unfolding_all rfl)) rfl

/-! ### Savitzky-Golay failure behaviour (C6 helpers) -/

theorem countP_flatMap_ones {α : Type} (l : List α) (f : α → List Triple)
    (p : Triple → Bool) (hf : ∀ x ∈ l, (f x).countP p = 1) :
    (l.flatMap f).countP p = l.length := by
  induction l with
  | nil => rfl
  | cons x xs ih =>
    rw [List.flatMap_cons, List.countP_append, hf x (by simp),
      List.length_cons, ih (fun y hy => hf y (by simp [hy]))]
    omega

theorem sisalD18OObs_no_savgol (rw sgw sgp : ℕ) (slug : String) (e k : ℕ)
    (v a : ℚ) (dep m : Option ℚ) :
    ∀ t ∈ sisalD18OObsTriples rw sgw sgp slug e k v a dep m none,
      t.pred ≠ geolod "smoothedValue_savgol" ∧
      t.pred ≠ geolod "smoothingMethod_savgol" := by
  intro t ht
  have h1 : t.pred ≠ geolod "smoothedValue_savgol" := by
    revert ht
    rcases dep with _ | dv <;> rcases m with _ | mv <;>
      exact fun ht => noPred_spec (by rfl) t ht
  have h2 : t.pred ≠ geolod "smoothingMethod_savgol" := by
    revert ht
    rcases dep with _ | dv <;> rcases m with _ | mv <;>
      exact fun ht => noPred_spec (by rfl) t ht
  exact ⟨h1, h2⟩

theorem sisalD18OObs_countP_measured (rw sgw sgp : ℕ) (slug : String)
    (e k : ℕ) (v a : ℚ) (dep m s : Option ℚ) :
    (sisalD18OObsTriples rw sgw sgp slug e k v a dep m s).countP
      (fun t => t.pred == geolod "measuredValue") = 1 := by
  rcases dep with _ | dv <;> rcases m with _ | mv <;> rcases s with _ | sv <;>
    rfl

theorem sisalD18OObs_countP_median (rw sgw sgp : ℕ) (slug : String)
    (e k : ℕ) (v a : ℚ) (dep : Option ℚ) (mv : ℚ) (s : Option ℚ) :
    (sisalD18OObsTriples rw sgw sgp slug e k v a dep (some mv) s).countP
      (fun t => t.pred == geolod "smoothedValue_rollingMedian") = 1 := by
  rcases dep with _ | dv <;> rcases s with _ | sv <;> rfl

theorem sisalD13CObs_no_savgol (rw sgw sgp : ℕ) (slug : String) (e k : ℕ)
    (v a : ℚ) (dep m : Option ℚ) :
    ∀ t ∈ sisalD13CObsTriples rw sgw sgp slug e k v a dep m none,
      t.pred ≠ geolod "smoothedValue_savgol" ∧
      t.pred ≠ geolod "smoothingMethod_savgol" := by
  intro t ht
  have h1 : t.pred ≠ geolod "smoothedValue_savgol" := by
    revert ht
    rcases dep with _ | dv <;> rcases m with _ | mv <;>
      exact fun ht => noPred_spec (by rfl) t ht
  have h2 : t.pred ≠ geolod "smoothingMethod_savgol" := by
    revert ht
    rcases dep with _ | dv <;> rcases m with _ | mv <;>
      exact fun ht => noPred_spec (by rfl) t ht
  exact ⟨h1, h2⟩

theorem sisalD13CObs_countP_measured (rw sgw sgp : ℕ) (slug : String)
    (e k : ℕ) (v a : ℚ) (dep m s : Option ℚ) :
    (sisalD13CObsTriples rw sgw sgp slug e k v a dep m s).countP
      (fun t => t.pred == geolod "measuredValue") = 1 := by
  rcases dep with _ | dv <;> rcases m with _ | mv <;> rcases s with _ | sv <;>
    rfl

theorem sisalD13CObs_countP_median (rw sgw sgp : ℕ) (slug : String)
    (e k : ℕ) (v a : ℚ) (dep : Option ℚ) (mv : ℚ) (s : Option ℚ) :
    (sisalD13CObsTriples rw sgw sgp slug e k v a dep (some mv) s).countP
      (fun t => t.pred == geolod "smoothedValue_rollingMedian") = 1 := by
  rcases dep with _ | dv <;> rcases s with _ | sv <;> rfl

theorem rollingMedian_length (w minp : ℕ) (xs : List ℚ) :
    (rollingMedian w minp xs).length = xs.length := by
  simp [rollingMedian]

/-- C6 (counterexample): the EPICA builder does not catch the
smoothing-window error.  On a 5-row CH4 table with the module's
`SG_WINDOW = 11`, the Savitzky-Golay call raises and the whole EPICA graph
build aborts: no graph is produced at all — in particular the raw-value
triples of the 5 valid rows are not emitted. -/
theorem epica_smoothing_abort_cex :
    build_epica_rdf "2026-02-03" 11 11 2 sgModel
      [⟨some 10, some 1, some 100⟩, ⟨some 20, some 2, some 110⟩,
       ⟨some 30, some 3, some 105⟩, ⟨some 40, some 4, some 120⟩,
       ⟨some 50, some 5, some 115⟩] [] =
      .error "window_length is too large for the given data" := by
  with_unfolding_all rfl

/-- C6 (amended): the smoothing-window error is caught locally only in the
SISAL builder.  In EPICA a Savitzky-Golay failure on the CH4 series aborts
the entire `build_epica_rdf` call (no triples at all).  In SISAL the
failure is caught inside each per-entity series block — the d18O block and
the d13C block alike: the failing block still emits, for every valid row,
its raw `measuredValue` triple and its rolling-median pair, and emits no
Savitzky-Golay-derived triples. -/
theorem smoothing_error_locality :
    (∀ (today : String) (rw sgw sgp : ℕ) (sg : SgFun)
       (ch4Rows d18oRows : List ERow),
      (∃ e, sg sgw sgp ((dropnaRows ch4Rows).map (fun r => r.1)) = .error e) →
      ∃ e, build_epica_rdf today rw sgw sgp sg ch4Rows d18oRows = .error e) ∧
    (∀ (rw sgw sgp : ℕ) (sg : SgFun) (slug : String) (e : ℕ)
       (rows : List SRow) (k0 : ℕ), 1 ≤ rw →
      (∃ err, sg sgw sgp ((sisalValidD18O rows).map (fun r => r.1)) =
        .error err) →
      (∀ t ∈ (sisalEntityD18O rw sgw sgp sg slug e rows k0).1,
        t.pred ≠ geolod "smoothedValue_savgol" ∧
        t.pred ≠ geolod "smoothingMethod_savgol") ∧
      (sisalEntityD18O rw sgw sgp sg slug e rows k0).1.countP
        (fun t => t.pred == geolod "measuredValue") =
        (sisalValidD18O rows).length ∧
      (sisalEntityD18O rw sgw sgp sg slug e rows k0).1.countP
        (fun t => t.pred == geolod "smoothedValue_rollingMedian") =
        (sisalValidD18O rows).length) ∧
    (∀ (rw sgw sgp : ℕ) (sg : SgFun) (slug : String) (e : ℕ)
       (rows : List SRow) (k0 : ℕ), 1 ≤ rw →
      (∃ err, sg sgw sgp ((sisalValidD13C rows).map (fun r => r.1)) =
        .error err) →
      (∀ t ∈ (sisalEntityD13C rw sgw sgp sg slug e rows k0).1,
        t.pred ≠ geolod "smoothedValue_savgol" ∧
        t.pred ≠ geolod "smoothingMethod_savgol") ∧
      (sisalEntityD13C rw sgw sgp sg slug e rows k0).1.countP
        (fun t => t.pred == geolod "measuredValue") =
        (sisalValidD13C rows).length ∧
      (sisalEntityD13C rw sgw sgp sg slug e rows k0).1.countP
        (fun t => t.pred == geolod "smoothedValue_rollingMedian") =
        (sisalValidD13C rows).length) := by
  refine ⟨?_, ?_, ?_⟩
  · rintro today rw sgw sgp sg ch4Rows d18oRows ⟨e, he⟩
    refine ⟨e, ?_⟩
    simp only [build_epica_rdf, buildEpicaCH4Section, he]
  · rintro rw sgw sgp sg slug e rows k0 hrw ⟨err, herr⟩
    simp only [sisalEntityD18O]
    by_cases hempty : (sisalValidD18O rows).isEmpty
    · have hnil : sisalValidD18O rows = [] := List.isEmpty_iff.1 hempty
      simp [hempty, hnil]
    · simp only [hempty, Bool.false_eq_true, if_false, herr,
        rollingMedian_one_eq rw _ hrw]
      have hlen : ((sisalValidD18O rows).zip
          (((rollingMedianT rw ((sisalValidD18O rows).map (fun r => r.1))).map
            some).zip
            (List.replicate ((sisalValidD18O rows).map (fun r => r.1)).length
              (none : Option ℚ)))).enum.length =
          (sisalValidD18O rows).length := by
        simp [rollingMedianT]
      have hmem : ∀ x ∈ ((sisalValidD18O rows).zip
          (((rollingMedianT rw ((sisalValidD18O rows).map (fun r => r.1))).map
            some).zip
            (List.replicate ((sisalValidD18O rows).map (fun r => r.1)).length
              (none : Option ℚ)))).enum,
          (∃ q, x.2.2.1 = some q) ∧ x.2.2.2 = none := by
        intro x hx
        have hx2 := List.getElem?_mem (List.mem_enum_iff_getElem?.1 hx)
        obtain ⟨y, ms⟩ := List.of_mem_zip hx2
        obtain ⟨hm, hs⟩ := List.of_mem_zip ms
        constructor
        · rcases List.mem_map.1 hm with ⟨q, _, hq⟩
          exact ⟨q, hq.symm⟩
        · exact List.eq_of_mem_replicate hs
      refine ⟨?_, ?_, ?_⟩
      · intro t ht
        rcases List.mem_flatMap.1 ht with ⟨x, hx, htx⟩
        obtain ⟨hm, hs⟩ := hmem x hx
        obtain ⟨i, ⟨⟨v, a, dep⟩, mz, sz⟩⟩ := x
        simp only at hs hm
        subst hs
        exact sisalD18OObs_no_savgol rw sgw sgp slug e (k0 + i) v a dep mz t htx
      · rw [countP_flatMap_ones _ _ _ ?_, hlen]
        intro x hx
        obtain ⟨i, ⟨⟨v, a, dep⟩, mz, sz⟩⟩ := x
        exact sisalD18OObs_countP_measured rw sgw sgp slug e (k0 + i) v a dep
          mz sz
      · rw [countP_flatMap_ones _ _ _ ?_, hlen]
        intro x hx
        obtain ⟨hm, hs⟩ := hmem x hx
        obtain ⟨i, ⟨⟨v, a, dep⟩, mz, sz⟩⟩ := x
        simp only at hm
        obtain ⟨q, hq⟩ := hm
        subst hq
        exact sisalD18OObs_countP_median rw sgw sgp slug e (k0 + i) v a dep q sz
  · rintro rw sgw sgp sg slug e rows k0 hrw ⟨err, herr⟩
    simp only [sisalEntityD13C]
    by_cases hempty : (sisalValidD13C rows).isEmpty
    · have hnil : sisalValidD13C rows = [] := List.isEmpty_iff.1 hempty
      simp [hempty, hnil]
    · simp only [hempty, Bool.false_eq_true, if_false, herr,
        rollingMedian_one_eq rw _ hrw]
      have hlen : ((sisalValidD13C rows).zip
          (((rollingMedianT rw ((sisalValidD13C rows).map (fun r => r.1))).map
            some).zip
            (List.replicate ((sisalValidD13C rows).map (fun r => r.1)).length
              (none : Option ℚ)))).enum.length =
          (sisalValidD13C rows).length := by
        simp [rollingMedianT]
      have hmem : ∀ x ∈ ((sisalValidD13C rows).zip
          (((rollingMedianT rw ((sisalValidD13C rows).map (fun r => r.1))).map
            some).zip
            (List.replicate ((sisalValidD13C rows).map (fun r => r.1)).length
              (none : Option ℚ)))).enum,
          (∃ q, x.2.2.1 = some q) ∧ x.2.2.2 = none := by
        intro x hx
        have hx2 := List.getElem?_mem (List.mem_enum_iff_getElem?.1 hx)
        obtain ⟨y, ms⟩ := List.of_mem_zip hx2
        obtain ⟨hm, hs⟩ := List.of_mem_zip ms
        constructor
        · rcases List.mem_map.1 hm with ⟨q, _, hq⟩
          exact ⟨q, hq.symm⟩
        · exact List.eq_of_mem_replicate hs
      refine ⟨?_, ?_, ?_⟩
      · intro t ht
        rcases List.mem_flatMap.1 ht with ⟨x, hx, htx⟩
        obtain ⟨hm, hs⟩ := hmem x hx
        obtain ⟨i, ⟨⟨v, a, dep⟩, mz, sz⟩⟩ := x
        simp only at hs hm
        subst hs
        exact sisalD13CObs_no_savgol rw sgw sgp slug e (k0 + i) v a dep mz t htx
      · rw [countP_flatMap_ones _ _ _ ?_, hlen]
        intro x hx
        obtain ⟨i, ⟨⟨v, a, dep⟩, mz, sz⟩⟩ := x
        exact sisalD13CObs_countP_measured rw sgw sgp slug e (k0 + i) v a dep
          mz sz
      · rw [countP_flatMap_ones _ _ _ ?_, hlen]
        intro x hx
        obtain ⟨hm, hs⟩ := hmem x hx
        obtain ⟨i, ⟨⟨v, a, dep⟩, mz, sz⟩⟩ := x
        simp only at hm
        obtain ⟨q, hq⟩ := hm
        subst hq
        exact sisalD13CObs_countP_median rw sgw sgp slug e (k0 + i) v a dep q sz

/-- Witness for `smoothing_error_locality`: `sgModel` with an 11-point
window on short series, for the EPICA abort and for both SISAL entity
blocks (d18O and d13C). -/
theorem smoothing_error_locality_witness :
    (∃ e, build_epica_rdf "2026-02-03" 11 11 2 sgModel
      [⟨some 10, some 1, some 100⟩] [] = .error e) ∧
    (∀ t ∈ (sisalEntityD18O 11 11 2 sgModel "144_botuvera" 1
        [⟨some 1, none, some 2, none⟩] 0).1,
      t.pred ≠ geolod "smoothedValue_savgol" ∧
      t.pred ≠ geolod "smoothingMethod_savgol") ∧
    (sisalEntityD18O 11 11 2 sgModel "144_botuvera" 1
        [⟨some 1, none, some 2, none⟩] 0).1.countP
      (fun t => t.pred == geolod "measuredValue") = 1 ∧
    (∀ t ∈ (sisalEntityD13C 11 11 2 sgModel "144_botuvera" 1
        [⟨none, some 1, some 2, none⟩] 0).1,
      t.pred ≠ geolod "smoothedValue_savgol" ∧
      t.pred ≠ geolod "smoothingMethod_savgol") ∧
    (sisalEntityD13C 11 11 2 sgModel "144_botuvera" 1
        [⟨none, some 1, some 2, none⟩] 0).1.countP
      (fun t => t.pred == geolod "measuredValue") = 1 := by
  have h1 := smoothing_error_locality.1 "2026-02-03" 11 11 2 sgModel
    [⟨some 10, some 1, some 100⟩] []
    ⟨"window_length is too large for the given data",
      by with_unfolding_all rfl⟩
  have h2 := smoothing_error_locality.2.1 11 11 2 sgModel "144_botuvera" 1
    [⟨some 1, none, some 2, none⟩] 0 (by decide)
    ⟨"window_length is too large for the given data",
      by with_unfolding_all rfl⟩
  have h3 := smoothing_error_locality.2.2 11 11 2 sgModel "144_botuvera" 1
    [⟨none, some 1, some 2, none⟩] 0 (by decide)
    ⟨"window_length is too large for the given data",
      by with_unfolding_all rfl⟩
  exact ⟨h1, h2.1, h2.2.1, h3.1, h3.2.1⟩

/-- C9 (counterexample): a SISAL row with `d18o` and `age` present but a
missing `depth_sample` is a valid row (it yields an observation with its
measured value), yet the emitted triple set contains no depth triple at
all — the depth link is conditional, not always present. -/
theorem sisal_depth_missing_cex :
    (⟨sisalD18OId "144_botuvera" 1 0, geolod "measuredValue",
      .num 1 (xsdNS "decimal")⟩ : Triple) ∈
      build_sisal_rdf 3 1 0 sgModel "Botuverá" "144_botuvera" 144 none
        [⟨1, "e1", [⟨some 1, none, some 2, none⟩]⟩] ∧
    ∀ t ∈ build_sisal_rdf 3 1 0 sgModel "Botuverá" "144_botuvera" 144 none
        [⟨1, "e1", [⟨some 1, none, some 2, none⟩]⟩],
      t.pred ≠ geolod "atDepth_mm" :=
  of_decide_eq_true (by with_unfolding_all rfl)

/-- C9 (amended): for every valid row the EPICA CH4 observation always
carries type declaration, feature-of-interest link, observed-property link,
result rounded to 2 decimals, age, depth, chronology link and DataSource
link; the SISAL d18O observation always carries type, feature-of-interest,
observed-property, age and value rounded to 4 decimals, chronology link and
DataSource link, but its depth triple is emitted only when `depth_sample`
is present — a valid row with missing depth yields no depth triple. -/
theorem observation_row_triples_amended :
    (∀ (rw sgw sgp i : ℕ) (v a d m s : ℚ),
      (⟨epicaCH4Id i, rdfNS "type", .uri (sosaNS "Observation")⟩ : Triple) ∈
        epicaCH4ObsTriples rw sgw sgp i v a d m s ∧
      (⟨epicaCH4Id i, sosaNS "hasFeatureOfInterest",
        .uri (geolod "EpicaDomeC_IceCore")⟩ : Triple) ∈
        epicaCH4ObsTriples rw sgw sgp i v a d m s ∧
      (⟨epicaCH4Id i, sosaNS "observedProperty",
        .uri (geolod "CH4Concentration")⟩ : Triple) ∈
        epicaCH4ObsTriples rw sgw sgp i v a d m s ∧
      (⟨epicaCH4Id i, sosaNS "hasSimpleResult",
        .num (rndHE 2 v) (xsdNS "decimal")⟩ : Triple) ∈
        epicaCH4ObsTriples rw sgw sgp i v a d m s ∧
      (⟨epicaCH4Id i, sosaNS "resultTime",
        .num (rndHE 4 a) (xsdNS "decimal")⟩ : Triple) ∈
        epicaCH4ObsTriples rw sgw sgp i v a d m s ∧
      (⟨epicaCH4Id i, geolod "atDepth_m",
        .num (rndHE 2 d) (xsdNS "decimal")⟩ : Triple) ∈
        epicaCH4ObsTriples rw sgw sgp i v a d m s ∧
      (⟨epicaCH4Id i, geolod "ageChronology",
        .uri (geolod "EDC2_Chronology")⟩ : Triple) ∈
        epicaCH4ObsTriples rw sgw sgp i v a d m s ∧
      (⟨epicaCH4Id i, provNS "wasDerivedFrom",
        .uri "https://doi.org/10.1594/PANGAEA.472484"⟩ : Triple) ∈
        epicaCH4ObsTriples rw sgw sgp i v a d m s) ∧
    (∀ (rw sgw sgp : ℕ) (slug : String) (e k : ℕ) (v a : ℚ)
       (dep m s : Option ℚ),
      (⟨sisalD18OId slug e k, rdfNS "type",
        .uri (geolod "Delta18OSpeleothemObservation")⟩ : Triple) ∈
        sisalD18OObsTriples rw sgw sgp slug e k v a dep m s ∧
      (⟨sisalD18OId slug e k, sosaNS "hasFeatureOfInterest",
        .uri (geolod ("Speleothem_" ++ slug ++ "_e" ++ pyStr e))⟩ : Triple) ∈
        sisalD18OObsTriples rw sgw sgp slug e k v a dep m s ∧
      (⟨sisalD18OId slug e k, sosaNS "observedProperty",
        .uri (geolod "Delta18O_Speleothem")⟩ : Triple) ∈
        sisalD18OObsTriples rw sgw sgp slug e k v a dep m s ∧
      (⟨sisalD18OId slug e k, geolod "ageKaBP",
        .num (rndHE 4 a) (xsdNS "decimal")⟩ : Triple) ∈
        sisalD18OObsTriples rw sgw sgp slug e k v a dep m s ∧
      (⟨sisalD18OId slug e k, geolod "measuredValue",
        .num (rndHE 4 v) (xsdNS "decimal")⟩ : Triple) ∈
        sisalD18OObsTriples rw sgw sgp slug e k v a dep m s ∧
      (⟨sisalD18OId slug e k, geolod "ageChronologySpeleothem",
        .uri (geolod ("UThChronology_" ++ slug))⟩ : Triple) ∈
        sisalD18OObsTriples rw sgw sgp slug e k v a dep m s ∧
      (⟨sisalD18OId slug e k, provNS "wasDerivedFrom",
        .uri (geolod "SISALv3_DataSource")⟩ : Triple) ∈
        sisalD18OObsTriples rw sgw sgp slug e k v a dep m s ∧
      (∀ dv, dep = some dv →
        (⟨sisalD18OId slug e k, geolod "atDepth_mm",
          .num (rndHE 3 dv) (xsdNS "decimal")⟩ : Triple) ∈
          sisalD18OObsTriples rw sgw sgp slug e k v a dep m s) ∧
      (dep = none → ∀ t ∈ sisalD18OObsTriples rw sgw sgp slug e k v a dep m s,
        t.pred ≠ geolod "atDepth_mm")) := by
  constructor
  · intro rw sgw sgp i v a d m s
    refine ⟨?_, ?_, ?_, ?_, ?_, ?_, ?_, ?_⟩ <;> simp [epicaCH4ObsTriples]
  · intro rw sgw sgp slug e k v a dep m s
    refine ⟨?_, ?_, ?_, ?_, ?_, ?_, ?_, ?_, ?_⟩
    · rcases dep with _ | dv <;> rcases m with _ | mv <;>
        rcases s with _ | sv <;> simp [sisalD18OObsTriples]
    · rcases dep with _ | dv <;> rcases m with _ | mv <;>
        rcases s with _ | sv <;> simp [sisalD18OObsTriples]
    · rcases dep with _ | dv <;> rcases m with _ | mv <;>
        rcases s with _ | sv <;> simp [sisalD18OObsTriples]
    · rcases dep with _ | dv <;> rcases m with _ | mv <;>
        rcases s with _ | sv <;> simp [sisalD18OObsTriples]
    · rcases dep with _ | dv <;> rcases m with _ | mv <;>
        rcases s with _ | sv <;> simp [sisalD18OObsTriples]
    · rcases dep with _ | dv <;> rcases m with _ | mv <;>
        rcases s with _ | sv <;> simp [sisalD18OObsTriples]
    · rcases dep with _ | dv <;> rcases m with _ | mv <;>
        rcases s with _ | sv <;> simp [sisalD18OObsTriples]
    · rintro dv rfl
      rcases m with _ | mv <;> rcases s with _ | sv <;>
        simp [sisalD18OObsTriples]
    · rintro rfl
      rcases m with _ | mv <;> rcases s with _ | sv <;>
        exact noPred_spec (by rfl)

/-- Witness for `observation_row_triples_amended` at concrete rows (one
with and one without a depth value). -/
theorem observation_row_triples_amended_witness :
    (⟨epicaCH4Id 0, rdfNS "type", .uri (sosaNS "Observation")⟩ : Triple) ∈
      epicaCH4ObsTriples 11 11 2 0 100 1 10 105 100 ∧
    (⟨sisalD18OId "144_botuvera" 1 0, geolod "atDepth_mm",
      .num (rndHE 3 3) (xsdNS "decimal")⟩ : Triple) ∈
      sisalD18OObsTriples 11 11 2 "144_botuvera" 1 0 1 2 (some 3) none none ∧
    (∀ t ∈ sisalD18OObsTriples 11 11 2 "144_botuvera" 1 0 1 2 none none none,
      t.pred ≠ geolod "atDepth_mm") :=
  ⟨(observation_row_triples_amended.1 11 11 2 0 100 1 10 105 100).1,
   (observation_row_triples_amended.2 11 11 2 "144_botuvera" 1 0 1 2
      (some 3) none none).2.2.2.2.2.2.2.1 3 rfl,
   (observation_row_triples_amended.2 11 11 2 "144_botuvera" 1 0 1 2
      none none none).2.2.2.2.2.2.2.2 rfl⟩

/-- The subjects of the `rdf:type cls` triples of a list, in order: the
observation nodes of a graph when `cls` is `sosa:Observation`. -/
def obsTypeSubjects (cls : String) (ts : List Triple) : List String :=
  ts.filterMap (fun t =>
    if t.pred = rdfNS "type" ∧ t.obj = Node.uri cls then some t.subj else none)

theorem obsTypeSubjects_append (cls : String) (a b : List Triple) :
    obsTypeSubjects cls (a ++ b) =
      obsTypeSubjects cls a ++ obsTypeSubjects cls b := by
  simp only [obsTypeSubjects, List.filterMap_append]

/-- C7 (counterexample): on the spec's five-row scenario (depths 10..50,
ages 1..5, values [100, 110, 105, 120, 115]) with rolling-median window 3,
the build succeeds and the third observation's rolling-median value is 110
(the median of its centered window \x7b110, 105, 120\x7d), not 105 (the median
of the first three values) as the spec claims: the graph holds the 110
triple and holds no 105 rolling-median triple for that observation. -/
theorem five_row_scenario_cex :
    ∃ ts, buildEpicaCH4Section 3 3 2 sgModel
        [⟨some 10, some 1, some 100⟩, ⟨some 20, some 2, some 110⟩,
         ⟨some 30, some 3, some 105⟩, ⟨some 40, some 4, some 120⟩,
         ⟨some 50, some 5, some 115⟩] = .ok ts ∧
      (⟨epicaCH4Id 2, geolod "smoothedValue_rollingMedian",
        .num 110 (xsdNS "decimal")⟩ : Triple) ∈ ts ∧
      (⟨epicaCH4Id 2, geolod "smoothedValue_rollingMedian",
        .num 105 (xsdNS "decimal")⟩ : Triple) ∉ ts :=
  ⟨_, rfl, of_decide_eq_true (by with_unfolding_all rfl),
    of_decide_eq_true (by with_unfolding_all rfl)⟩

/-- C7 (amended): on the five-row scenario with rolling-median window 3 the
build produces exactly the five Observation nodes `Obs_CH4_0000` ..
`Obs_CH4_0004` (no duplicates), each carrying a `smoothingMethod_median`
link to the single `RollingMedian_w3` method node, which is the only target
of that predicate in the whole graph and carries `windowSize 3`; the third
observation's rolling-median value is 110 — the window is CENTERED
(pandas `rolling(window, center=True, min_periods=1)`), so the third
window is \x7b110, 105, 120\x7d with median 110, whereas the median of the
first three values \x7b100, 110, 105\x7d is 105 and is the value of the
SECOND observation, not the third. -/
theorem five_row_scenario_amended (today : String) (sgw sgp : ℕ) (sg : SgFun)
    (ts : List Triple) (ys : List ℚ)
    (hsg : sg sgw sgp [100, 110, 105, 120, 115] = .ok ys)
    (hlen : ys.length = 5)
    (h : buildEpicaCH4Section 3 sgw sgp sg
      [⟨some 10, some 1, some 100⟩, ⟨some 20, some 2, some 110⟩,
       ⟨some 30, some 3, some 105⟩, ⟨some 40, some 4, some 120⟩,
       ⟨some 50, some 5, some 115⟩] = .ok ts) :
    obsTypeSubjects (sosaNS "Observation")
        (epicaStaticTriples today 3 sgw sgp ++ ts) =
      [epicaCH4Id 0, epicaCH4Id 1, epicaCH4Id 2, epicaCH4Id 3, epicaCH4Id 4] ∧
    (obsTypeSubjects (sosaNS "Observation")
        (epicaStaticTriples today 3 sgw sgp ++ ts)).Nodup ∧
    (∀ u ∈ obsTypeSubjects (sosaNS "Observation")
        (epicaStaticTriples today 3 sgw sgp ++ ts),
      (⟨u, geolod "smoothingMethod_median",
        .uri (epicaMedianNode 3)⟩ : Triple) ∈ ts) ∧
    (∀ t ∈ epicaStaticTriples today 3 sgw sgp ++ ts,
      t.pred = geolod "smoothingMethod_median" →
        t.obj = .uri (epicaMedianNode 3)) ∧
    (⟨epicaMedianNode 3, geolod "windowSize",
        .num ((3 : ℕ) : ℚ) (xsdNS "integer")⟩ : Triple) ∈
      epicaStaticTriples today 3 sgw sgp ++ ts ∧
    (⟨epicaCH4Id 2, geolod "smoothedValue_rollingMedian",
        .num 110 (xsdNS "decimal")⟩ : Triple) ∈ ts ∧
    rollingMedianT 3 [100, 110, 105, 120, 115] =
      [105, 105, 110, 115, 235/2] ∧
    medianQ [110, 105, 120] = 110 ∧
    medianQ [100, 110, 105] = 105 := by
  rcases ys with _ | ⟨y0, ys⟩
  · simp only [List.length_nil, List.length_cons] at hlen
    omega
  rcases ys with _ | ⟨y1, ys⟩
  · simp only [List.length_nil, List.length_cons] at hlen
    omega
  rcases ys with _ | ⟨y2, ys⟩
  · simp only [List.length_nil, List.length_cons] at hlen
    omega
  rcases ys with _ | ⟨y3, ys⟩
  · simp only [List.length_nil, List.length_cons] at hlen
    omega
  rcases ys with _ | ⟨y4, ys⟩
  · simp only [List.length_nil, List.length_cons] at hlen
    omega
  rcases ys with _ | ⟨y5, ys⟩
  swap
  · simp only [List.length_cons] at hlen
    omega
  have hv : (dropnaRows
      [⟨some 10, some 1, some 100⟩, ⟨some 20, some 2, some 110⟩,
       ⟨some 30, some 3, some 105⟩, ⟨some 40, some 4, some 120⟩,
       ⟨some 50, some 5, some 115⟩]).map (fun r => r.1) =
      ([100, 110, 105, 120, 115] : List ℚ) := rfl
  have h2 : buildEpicaCH4Section 3 sgw sgp sg
      [⟨some 10, some 1, some 100⟩, ⟨some 20, some 2, some 110⟩,
       ⟨some 30, some 3, some 105⟩, ⟨some 40, some 4, some 120⟩,
       ⟨some 50, some 5, some 115⟩] = .ok
      (epicaCH4ObsTriples 3 sgw sgp 0 100 1 10 105 y0 ++
       epicaCH4ObsTriples 3 sgw sgp 1 110 2 20 105 y1 ++
       epicaCH4ObsTriples 3 sgw sgp 2 105 3 30 110 y2 ++
       epicaCH4ObsTriples 3 sgw sgp 3 120 4 40 115 y3 ++
       epicaCH4ObsTriples 3 sgw sgp 4 115 5 50 (235/2) y4) := by
    simp only [buildEpicaCH4Section]
    rw [hv, hsg]
    with_unfolding_all rfl
  rw [h] at h2
  injection h2 with hts
  subst hts
  have hstat0 : obsTypeSubjects (sosaNS "Observation")
      (epicaStaticTriples today 3 sgw sgp) = [] := rfl
  have hobs0 : obsTypeSubjects (sosaNS "Observation")
      (epicaCH4ObsTriples 3 sgw sgp 0 100 1 10 105 y0 ++
       epicaCH4ObsTriples 3 sgw sgp 1 110 2 20 105 y1 ++
       epicaCH4ObsTriples 3 sgw sgp 2 105 3 30 110 y2 ++
       epicaCH4ObsTriples 3 sgw sgp 3 120 4 40 115 y3 ++
       epicaCH4ObsTriples 3 sgw sgp 4 115 5 50 (235/2) y4) =
      [epicaCH4Id 0, epicaCH4Id 1, epicaCH4Id 2, epicaCH4Id 3,
       epicaCH4Id 4] := rfl
  have ha : obsTypeSubjects (sosaNS "Observation")
      (epicaStaticTriples today 3 sgw sgp ++
       (epicaCH4ObsTriples 3 sgw sgp 0 100 1 10 105 y0 ++
        epicaCH4ObsTriples 3 sgw sgp 1 110 2 20 105 y1 ++
        epicaCH4ObsTriples 3 sgw sgp 2 105 3 30 110 y2 ++
        epicaCH4ObsTriples 3 sgw sgp 3 120 4 40 115 y3 ++
        epicaCH4ObsTriples 3 sgw sgp 4 115 5 50 (235/2) y4)) =
      [epicaCH4Id 0, epicaCH4Id 1, epicaCH4Id 2, epicaCH4Id 3,
       epicaCH4Id 4] := by
    rw [obsTypeSubjects_append, hstat0, hobs0, List.nil_append]
  refine ⟨ha, ?_, ?_, ?_, ?_, ?_, ?_, ?_, ?_⟩
  · rw [ha]
    exact of_decide_eq_true (by with_unfolding_all rfl)
  · intro u hu
    rw [ha] at hu
    simp only [List.mem_cons, List.not_mem_nil, or_false] at hu
    rcases hu with rfl | rfl | rfl | rfl | rfl <;> simp [epicaCH4ObsTriples]
  · intro t ht
    rcases List.mem_append.1 ht with h1 | h1
    · exact (predNotSmoothing_spec (epicaStatic_no_method today 3 sgw sgp)
        (epicaMedianNode 3) (epicaSavgolNode sgw sgp) t h1).1
    · simp only [List.mem_append, or_assoc] at h1
      rcases h1 with h1 | h1 | h1 | h1 | h1 <;>
        exact (epicaCH4Obs_method_refs 3 sgw sgp _ _ _ _ _ _ t h1).1
  · refine List.mem_append_left _ ?_
    have hws : (⟨epicaMedianNode 3, geolod "windowSize",
        .num ((3 : ℕ) : ℚ) (xsdNS "integer")⟩ : Triple) ∈
        epicaStaticPart5 today 3 sgw sgp := by
      simp only [epicaStaticPart5, List.mem_cons]
      exact Or.inr (Or.inr (Or.inr (Or.inr (Or.inr (Or.inr (Or.inr
        (Or.inl trivial)))))))
    simp only [epicaStaticTriples, List.mem_append]
    tauto
  · have htri : (⟨epicaCH4Id 2, geolod "smoothedValue_rollingMedian",
        .num (rndHE 2 110) (xsdNS "decimal")⟩ : Triple) =
        ⟨epicaCH4Id 2, geolod "smoothedValue_rollingMedian",
          .num 110 (xsdNS "decimal")⟩ := by
      with_unfolding_all rfl
    have hmem : (⟨epicaCH4Id 2, geolod "smoothedValue_rollingMedian",
        .num (rndHE 2 110) (xsdNS "decimal")⟩ : Triple) ∈
        epicaCH4ObsTriples 3 sgw sgp 0 100 1 10 105 y0 ++
        epicaCH4ObsTriples 3 sgw sgp 1 110 2 20 105 y1 ++
        epicaCH4ObsTriples 3 sgw sgp 2 105 3 30 110 y2 ++
        epicaCH4ObsTriples 3 sgw sgp 3 120 4 40 115 y3 ++
        epicaCH4ObsTriples 3 sgw sgp 4 115 5 50 (235/2) y4 := by
      simp [epicaCH4ObsTriples]
    exact htri ▸ hmem
  · with_unfolding_all rfl
  · with_unfolding_all rfl
  · with_unfolding_all rfl

/-- The CH4 observation triples produced by the five-row scenario when the
smoothing filter is the modelled `sgModel` (which returns its input). -/
def epicaFiveRowTs : List Triple :=
  epicaCH4ObsTriples 3 3 2 0 100 1 10 105 100 ++
  epicaCH4ObsTriples 3 3 2 1 110 2 20 105 110 ++
  epicaCH4ObsTriples 3 3 2 2 105 3 30 110 105 ++
  epicaCH4ObsTriples 3 3 2 3 120 4 40 115 120 ++
  epicaCH4ObsTriples 3 3 2 4 115 5 50 (235/2) 115

/-- Witness for `five_row_scenario_amended`: the five-row scenario run with
the modelled smoothing filter. -/
theorem five_row_scenario_amended_witness :
    obsTypeSubjects (sosaNS "Observation")
        (epicaStaticTriples "2026-02-03" 3 3 2 ++ epicaFiveRowTs) =
      [epicaCH4Id 0, epicaCH4Id 1, epicaCH4Id 2, epicaCH4Id 3,
       epicaCH4Id 4] ∧
    (⟨epicaCH4Id 2, geolod "smoothedValue_rollingMedian",
        .num 110 (xsdNS "decimal")⟩ : Triple) ∈ epicaFiveRowTs :=
  ⟨(five_row_scenario_amended "2026-02-03" 3 2 sgModel epicaFiveRowTs
      [100, 110, 105, 120, 115] (by with_unfolding_all rfl) rfl
      (by with_unfolding_all rfl)).1,
   (five_row_scenario_amended "2026-02-03" 3 2 sgModel epicaFiveRowTs
      [100, 110, 105, 120, 115] (by with_unfolding_all rfl) rfl
      (by with_unfolding_all rfl)).2.2.2.2.2.1⟩
